import Mathlib

/-!
Shallow embedding of `src/build.js` (Survivor Science podcast archive —
static-site generator) and proofs about its parsing, normalization,
sorting and rendering behaviour.

Strings are modelled as `String` / `List Char`.  JavaScript regular
expression operations are modelled by explicit scanning functions whose
semantics follow the cited regex literal (leftmost match, greedy /
lazy quantifier behaviour, global flag as non-overlapping rescans after
a match, case-insensitive flag via lower-casing).  JavaScript `Date`
parsing and display formatting (timezone-dependent calendar arithmetic)
is beyond a shallow string embedding; the date value of an episode is
modelled as an `Int` (millisecond timestamp) produced by a parameter
function `jsDate`, and the display formatter `formatDate` is likewise a
parameter.  No claim in scope depends on their values.
-/

/-- Whitespace class of JavaScript `\s` (and `String.prototype.trim`),
restricted to the code points that can occur in this development. -/
def isJsSpace (c : Char) : Bool :=
  c == ' ' || c == '\t' || c == '\n' || c == '\r' ||
  c == Char.ofNat 11 || c == Char.ofNat 12 || c == Char.ofNat 160 || c == Char.ofNat 65279

/-- Case-insensitive character comparison, as used by the `/i` regex flag. -/
def ciEq (a b : Char) : Bool := a.toLower == b.toLower

/-- Case-insensitive "is the first list a prefix of the second". -/
def ciIsPfx : List Char → List Char → Bool
  | [], _ => true
  | _ :: _, [] => false
  | p :: ps, c :: cs => ciEq p c && ciIsPfx ps cs

/-- Split at the first (leftmost) case-sensitive occurrence of `pat`:
returns the part before the occurrence and the part after it. -/
def splitAtSub (pat : List Char) : List Char → Option (List Char × List Char)
  | [] => none
  | c :: rest =>
    if pat.isPrefixOf (c :: rest) then some ([], (c :: rest).drop pat.length)
    else
      match splitAtSub pat rest with
      | some (a, b) => some (c :: a, b)
      | none => none

/-- Split at the first (leftmost) case-insensitive occurrence of `pat`. -/
def splitAtSubCI (pat : List Char) : List Char → Option (List Char × List Char)
  | [] => none
  | c :: rest =>
    if ciIsPfx pat (c :: rest) then some ([], (c :: rest).drop pat.length)
    else
      match splitAtSubCI pat rest with
      | some (a, b) => some (c :: a, b)
      | none => none

theorem isPrefixOf_length {pat l : List Char} (h : pat.isPrefixOf l = true) :
    pat.length ≤ l.length := by
  induction pat generalizing l with
  | nil => simp
  | cons p ps ih =>
    cases l with
    | nil => simp [List.isPrefixOf] at h
    | cons c cs =>
      simp only [List.isPrefixOf, Bool.and_eq_true] at h
      simpa [List.length_cons, Nat.succ_le_succ_iff] using ih h.2

theorem ciIsPfx_length {pat l : List Char} (h : ciIsPfx pat l = true) :
    pat.length ≤ l.length := by
  induction pat generalizing l with
  | nil => simp
  | cons p ps ih =>
    cases l with
    | nil => simp [ciIsPfx] at h
    | cons c cs =>
      simp only [ciIsPfx, Bool.and_eq_true] at h
      simpa [List.length_cons, Nat.succ_le_succ_iff] using ih h.2

theorem splitAtSub_length {pat : List Char} :
    ∀ {l a b : List Char}, splitAtSub pat l = some (a, b) →
      a.length + pat.length + b.length = l.length := by
  intro l
  induction l with
  | nil => intro a b h; simp [splitAtSub] at h
  | cons c rest ih =>
    intro a b h
    by_cases hp : pat.isPrefixOf (c :: rest) = true
    · have hlen : pat.length ≤ (c :: rest).length :=
        isPrefixOf_length hp
      simp only [splitAtSub, hp, if_true, Option.some.injEq, Prod.mk.injEq] at h
      obtain ⟨ha, hb⟩ := h
      subst ha; subst hb
      simp only [List.length_nil, List.length_drop]
      omega
    · simp only [splitAtSub, hp, if_false, Bool.false_eq_true] at h
      cases hsplit : splitAtSub pat rest with
      | none => rw [hsplit] at h; exact absurd h (by simp)
      | some ab =>
        obtain ⟨a', b'⟩ := ab
        rw [hsplit] at h
        simp only [Option.some.injEq, Prod.mk.injEq] at h
        obtain ⟨ha, hb⟩ := h
        subst ha; subst hb
        have := ih hsplit
        simp only [List.length_cons]
        omega

theorem splitAtSubCI_length {pat : List Char} :
    ∀ {l a b : List Char}, splitAtSubCI pat l = some (a, b) →
      a.length + pat.length + b.length = l.length := by
  intro l
  induction l with
  | nil => intro a b h; simp [splitAtSubCI] at h
  | cons c rest ih =>
    intro a b h
    by_cases hp : ciIsPfx pat (c :: rest) = true
    · have hlen : pat.length ≤ (c :: rest).length := ciIsPfx_length hp
      simp only [splitAtSubCI, hp, if_true, Option.some.injEq, Prod.mk.injEq] at h
      obtain ⟨ha, hb⟩ := h
      subst ha; subst hb
      simp only [List.length_nil, List.length_drop]
      omega
    · simp only [splitAtSubCI, hp, if_false, Bool.false_eq_true] at h
      cases hsplit : splitAtSubCI pat rest with
      | none => rw [hsplit] at h; exact absurd h (by simp)
      | some ab =>
        obtain ⟨a', b'⟩ := ab
        rw [hsplit] at h
        simp only [Option.some.injEq, Prod.mk.injEq] at h
        obtain ⟨ha, hb⟩ := h
        subst ha; subst hb
        have := ih hsplit
        simp only [List.length_cons]
        omega

/-- Fuel-indexed worker for `jsReplaceScan`; the fuel (initially the input
length, always sufficient) only makes the recursion structural so that the
function reduces definitionally. -/
def jsReplaceScanF (pat repl : List Char) (ok : List Char → Bool) : Nat → List Char → List Char
  | _, [] => []
  | 0, l => l
  | fuel + 1, c :: rest =>
    if pat ≠ [] ∧ pat.isPrefixOf (c :: rest) = true ∧ ok ((c :: rest).drop pat.length) = true then
      repl ++ jsReplaceScanF pat repl ok fuel ((c :: rest).drop pat.length)
    else
      c :: jsReplaceScanF pat repl ok fuel rest

/-- Generic model of `String.prototype.replace` with a global regex whose
pattern is the fixed literal `pat` followed by a (possibly trivial)
lookahead condition `ok` on the text after the literal.  After a match the
scan resumes after the matched literal; replacement text is not rescanned
(exactly the JS semantics). -/
def jsReplaceScan (pat repl : List Char) (ok : List Char → Bool) (l : List Char) : List Char :=
  jsReplaceScanF pat repl ok l.length l

theorem jsReplaceScanF_congr (pat repl : List Char) (ok : List Char → Bool) :
    ∀ (f1 f2 : Nat) (l : List Char), l.length ≤ f1 → l.length ≤ f2 →
      jsReplaceScanF pat repl ok f1 l = jsReplaceScanF pat repl ok f2 l := by
  intro f1
  induction f1 with
  | zero =>
    intro f2 l h1 _
    have : l = [] := List.length_eq_zero.mp (Nat.le_zero.mp h1)
    subst this
    cases f2 <;> rfl
  | succ f ih =>
    intro f2 l h1 h2
    cases l with
    | nil => cases f2 <;> rfl
    | cons c rest =>
      cases f2 with
      | zero => simp at h2
      | succ f2' =>
        show (if _ then _ else _) = (if _ then _ else _)
        by_cases hc : pat ≠ [] ∧ pat.isPrefixOf (c :: rest) = true ∧
            ok ((c :: rest).drop pat.length) = true
        · rw [if_pos hc, if_pos hc]
          have hple : pat.length ≤ (c :: rest).length :=
            isPrefixOf_length hc.2.1
          have hpos : 0 < pat.length := List.length_pos.mpr hc.1
          have hd : ((c :: rest).drop pat.length).length ≤ f := by
            simp only [List.length_drop, List.length_cons]
            simp only [List.length_cons] at h1
            omega
          have hd2 : ((c :: rest).drop pat.length).length ≤ f2' := by
            simp only [List.length_drop, List.length_cons]
            simp only [List.length_cons] at h2
            omega
          rw [ih f2' _ hd hd2]
        · rw [if_neg hc, if_neg hc]
          have hr : rest.length ≤ f := by
            simp only [List.length_cons] at h1
            omega
          have hr2 : rest.length ≤ f2' := by
            simp only [List.length_cons] at h2
            omega
          rw [ih f2' _ hr hr2]

/-- Model of `text.replace(/lit/g, repl)` for a fixed literal pattern. -/
def jsReplaceAll (pat repl : List Char) (l : List Char) : List Char :=
  jsReplaceScan pat repl (fun _ => true) l

/-- Drop the longest suffix whose characters all satisfy `p`. -/
def dropTrail (p : Char → Bool) (l : List Char) : List Char :=
  (l.reverse.dropWhile p).reverse

/-- Model of JavaScript `String.prototype.trim`. -/
def jsTrim (l : List Char) : List Char :=
  dropTrail isJsSpace (l.dropWhile isJsSpace)

/-- Model of the tag-removal regex replace `text.replace(/<[^>]+>/g, '')`
from `stripHtml` and `getCDATA` (build.js lines 49 and 143): a `<` followed
by at least one non-`>` character and a closing `>` is removed; a `<` with
no such closing (or immediately followed by `>`) is kept and scanning
moves on by one character, exactly as the regex engine does. -/
def stripTagsF : Nat → List Char → List Char
  | _, [] => []
  | 0, l => l
  | fuel + 1, c :: rest =>
    if c = '<' ∧ rest.takeWhile (fun x => x != '>') ≠ [] ∧
        rest.dropWhile (fun x => x != '>') ≠ [] then
      stripTagsF fuel ((rest.dropWhile (fun x => x != '>')).drop 1)
    else
      c :: stripTagsF fuel rest

def stripTags (l : List Char) : List Char := stripTagsF l.length l

-- ─── XML Extractor (build.js lines 41-66) ──────────────────────────────────

/-- Match of the opening-tag part `<tag[^>]*>` (case-insensitive, as under
the `/i` flag) at the start of the list; returns the text after the `>`. -/
def tagOpenRemainder (tag : List Char) : List Char → Option (List Char)
  | [] => none
  | c :: rest =>
    if c == '<' && ciIsPfx tag rest then
      match (rest.drop tag.length).dropWhile (fun x => x != '>') with
      | '>' :: afterOpen => some afterOpen
      | _ => none
    else none

/-- Scan for the leftmost position where the whole regex
`<tag[^>]*>([\s\S]*?)<\/tag>` (flag `i`) matches, returning the lazily
captured content: the text between the opening tag and the first
subsequent closing tag.  On failure at a position the engine moves one
character to the right, which the recursion mirrors. -/
def tagScan (tag : List Char) : List Char → Option (List Char)
  | [] => none
  | c :: rest =>
    match tagOpenRemainder tag (c :: rest) with
    | some afterOpen =>
      match splitAtSubCI ('<' :: '/' :: tag ++ ['>']) afterOpen with
      | some (content, _) => some content
      | none => tagScan tag rest
    | none => tagScan tag rest

/-- Embeds `getTagContent(xml, tag)` (build.js lines 41-45): first
case-insensitive match of `<tag[^>]*>...</tag>`, trimmed; `''` if absent. -/
def getTagContent (xml tag : String) : String :=
  match tagScan tag.data xml.data with
  | some content => ⟨jsTrim content⟩
  | none => ""

def cdataOpenL : List Char := "<![CDATA[".data

def cdataCloseL : List Char := "]]>".data

/-- Scan of `text.match(/<!\[CDATA\[([\s\S]*?)\]\]>/)` (build.js line 48). -/
def cdataScan : List Char → Option (List Char)
  | [] => none
  | c :: rest =>
    if cdataOpenL.isPrefixOf (c :: rest) then
      match splitAtSub cdataCloseL ((c :: rest).drop cdataOpenL.length) with
      | some (inner, _) => some inner
      | none => cdataScan rest
    else cdataScan rest

/-- Embeds `getCDATA(text)` (build.js lines 47-50): inner content of the
first CDATA section, trimmed; otherwise all markup tags are stripped and
the remainder trimmed. -/
def getCDATA (text : String) : String :=
  match cdataScan text.data with
  | some inner => ⟨jsTrim inner⟩
  | none => ⟨jsTrim (stripTags text.data)⟩

def apos : Char := Char.ofNat 39

/-- Match of `\s attr = ["'] ([^"']*) ["']` (case-insensitive `attr`) at the
start of the list, returning the captured value.  The two quotes need not
be the same kind, exactly as in the regex of build.js line 53. -/
def attrValueAt (attr : List Char) : List Char → Option (List Char)
  | [] => none
  | c :: rest =>
    if isJsSpace c && ciIsPfx attr rest then
      match rest.drop attr.length with
      | '=' :: q :: rest2 =>
        if q == '"' || q == apos then
          match rest2.dropWhile (fun x => x != '"' && x != apos) with
          | _ :: _ => some (rest2.takeWhile (fun x => x != '"' && x != apos))
          | [] => none
        else none
      | _ => none
    else none

/-- Greedy backtracking of `[^>]*` in the attribute regex: the longest
consumable span is tried first, then shorter ones. -/
def tryAttrBacktrack (attr l : List Char) : Nat → Option (List Char)
  | 0 => attrValueAt attr l
  | Nat.succ k =>
    match attrValueAt attr (l.drop (k + 1)) with
    | some v => some v
    | none => tryAttrBacktrack attr l k

/-- Scan for the leftmost match of `<tag[^>]*\s attr=["']([^"']*)["']` (`/i`). -/
def getAttrScan (tag attr : List Char) : List Char → Option (List Char)
  | [] => none
  | c :: rest =>
    if c == '<' && ciIsPfx tag rest then
      match tryAttrBacktrack attr (rest.drop tag.length)
          ((rest.drop tag.length).takeWhile (fun x => x != '>')).length with
      | some v => some v
      | none => getAttrScan tag attr rest
    else getAttrScan tag attr rest

/-- Embeds `getAttr(xml, tag, attr)` (build.js lines 52-56). -/
def getAttr (xml tag attr : String) : String :=
  match getAttrScan tag.data attr.data xml.data with
  | some v => ⟨v⟩
  | none => ""

def itemOpenL : List Char := "<item>".data

def itemCloseL : List Char := "</item>".data

/-- Scan of the global regex `/<item>([\s\S]*?)<\/item>/gi` from
`getAllItems` (build.js lines 58-66): case-insensitive literal `<item>`
with no attributes, lazy capture up to the first case-insensitive
`</item>`, resuming after the closing tag.  If an opening tag has no
closing tag after it, the `exec` loop finds no further match. -/
def itemScanF : Nat → List Char → List (List Char)
  | _, [] => []
  | 0, _ => []
  | fuel + 1, c :: rest =>
    if ciIsPfx itemOpenL (c :: rest) then
      match splitAtSubCI itemCloseL ((c :: rest).drop itemOpenL.length) with
      | some (content, after) => content :: itemScanF fuel after
      | none => []
    else itemScanF fuel rest

def itemScan (l : List Char) : List (List Char) := itemScanF l.length l

/-- Embeds `getAllItems(xml)` (build.js lines 58-66). -/
def getAllItems (xml : String) : List String :=
  (itemScan xml.data).map String.mk

-- ─── Text utilities (build.js lines 138-155) ───────────────────────────────

/-- Embeds `escapeHtml(text)` (build.js lines 138-140): the four chained
global single-character replaces, `&` first. -/
def escapeHtml (text : String) : String :=
  ⟨jsReplaceAll ['"'] "&quot;".data
    (jsReplaceAll ['>'] "&gt;".data
      (jsReplaceAll ['<'] "&lt;".data
        (jsReplaceAll ['&'] "&amp;".data text.data)))⟩

/-- Embeds `stripHtml(text)` (build.js lines 142-144): tag removal followed
by the six chained entity replaces, in source order. -/
def stripHtml (text : String) : String :=
  ⟨jsReplaceAll "&quot;".data ['"']
    (jsReplaceAll "&#39;".data [apos]
      (jsReplaceAll "&gt;".data ['>']
        (jsReplaceAll "&lt;".data ['<']
          (jsReplaceAll "&amp;".data ['&']
            (jsReplaceAll "&nbsp;".data [' ']
              (stripTags text.data))))))⟩

def sendPfxL : List Char := "Send us a text".data

/-- Embeds `cleanDescription(text)` (build.js lines 146-149):
`text.replace(/^Send us a text\s*/i, '')`. -/
def cleanDescription (text : String) : String :=
  if ciIsPfx sendPfxL text.data then ⟨(text.data.drop sendPfxL.length).dropWhile isJsSpace⟩
  else text

/-- Model of the single (non-global) replace `cut.replace(/\s+\S*$/, '')`
used by `truncate`: the leftmost match of `\s+\S*$` is the start of the
last whitespace run, so the replace removes the last whitespace run and
everything after it; with no whitespace present there is no match. -/
def jsTrimBackWord (cut : List Char) : List Char :=
  if cut.any isJsSpace then dropTrail isJsSpace (dropTrail (fun c => !isJsSpace c) cut)
  else cut

/-- Embeds `truncate(text, maxLen)` (build.js lines 151-155).  The source
declares a default `maxLen = 200`; every call site passes it explicitly. -/
def truncate (text : String) (maxLen : Nat) : String :=
  let plain := cleanDescription (stripHtml text)
  if plain.length ≤ maxLen then plain
  else ⟨jsTrimBackWord (plain.data.take maxLen)⟩ ++ "..."

-- ─── Episode normalizer (build.js lines 68-134) ────────────────────────────

def isHexDigit (c : Char) : Bool :=
  c.isDigit || ('a' ≤ c.toLower && c.toLower ≤ 'f')

def hexDigitVal (c : Char) : Nat :=
  if c.isDigit then c.toNat - 48 else c.toLower.toNat - 87

def digitsToNat (base : Nat) (ds : List Char) : Nat :=
  ds.foldl (fun acc c => acc * base + hexDigitVal c) 0

/-- Model of JavaScript `parseInt`: leading whitespace and an optional sign
are skipped, then the longest digit prefix is read; `none` models `NaN`.
With `allowHex = true` (radix argument omitted, as in the episode sort) a
`0x`/`0X` prefix switches to hexadecimal; with `allowHex = false` the
explicit radix 10 of `formatDuration` is used. -/
def jsParseIntCore (allowHex : Bool) (s : String) : Option Int :=
  let l := s.data.dropWhile isJsSpace
  let signed : Bool × List Char :=
    match l with
    | '-' :: r => (true, r)
    | '+' :: r => (false, r)
    | _ => (false, l)
  let based : Nat × List Char :=
    if allowHex then
      match signed.2 with
      | '0' :: c :: r => if c == 'x' || c == 'X' then (16, r) else (10, signed.2)
      | _ => (10, signed.2)
    else (10, signed.2)
  let ds := based.2.takeWhile (fun c => if based.1 == 16 then isHexDigit c else c.isDigit)
  if ds.isEmpty then none
  else some ((if signed.1 then -1 else 1) * (digitsToNat based.1 ds : Int))

/-- JavaScript `parseInt(s, 10)` as called in `formatDuration`. -/
def jsParseInt10 (s : String) : Option Int := jsParseIntCore false s

/-- JavaScript `parseInt(s)` with no radix, as called in the episode sort. -/
def jsParseIntND (s : String) : Option Int := jsParseIntCore true s

/-- Embeds `formatDuration(seconds)` (build.js lines 116-124).  `Math.floor`
on the quotient is `Int.fdiv`; the JS `%` remainder is `Int.tmod`.  The
unused local `sec = s % 60` of the source is omitted. -/
def formatDuration (seconds : String) : String :=
  match jsParseInt10 seconds with
  | none => seconds
  | some s =>
    let h := Int.fdiv s 3600
    let m := Int.fdiv (Int.tmod s 3600) 60
    if 0 < h then toString h ++ "h " ++ toString m ++ "m"
    else toString m ++ " min"

/-- Match of `title.match(/^(\d+)\./)` (build.js line 93): a non-empty
leading digit run immediately followed by a dot. -/
def leadNumDigits (title : String) : Option (List Char) :=
  let ds := title.data.takeWhile Char.isDigit
  if ds.isEmpty then none
  else
    match title.data.drop ds.length with
    | c :: _ => if c = '.' then some ds else none
    | [] => none

/-- Embeds `title.replace(/^\d+\.\s*/, '')` (build.js line 98). -/
def stripLeadingNum (title : String) : String :=
  let ds := title.data.takeWhile Char.isDigit
  if ds.isEmpty then title
  else
    match title.data.drop ds.length with
    | c :: rest => if c = '.' then ⟨rest.dropWhile isJsSpace⟩ else title
    | [] => title

/-- Scan of `audioUrl.match(/episodes\/(\d+)/)` (build.js line 87). -/
def epIdScan : List Char → Option (List Char)
  | [] => none
  | c :: rest =>
    if "episodes/".data.isPrefixOf (c :: rest) then
      let ds := ((c :: rest).drop 9).takeWhile Char.isDigit
      if ds.isEmpty then epIdScan rest else some ds
    else epIdScan rest

def buzzsproutIdOf (audioUrl : String) : String :=
  match epIdScan audioUrl.data with
  | some ds => ⟨ds⟩
  | none => ""

/-- JavaScript `a || b` on strings: `b` exactly when `a` is empty (falsy). -/
def jsOr (a b : String) : String := if a = "" then b else a

/-- The normalized episode record returned by `parseEpisode`
(build.js lines 97-113), with the `Date` value modelled as an `Int`
millisecond timestamp. -/
structure Episode where
  title : String
  fullTitle : String
  description : String
  summary : String
  pubDate : String
  date : Int
  duration : String
  durationRaw : String
  episode : String
  season : String
  explicit : Bool
  audioUrl : String
  episodeImage : String
  buzzsproutId : String
  guid : String
deriving DecidableEq

/-- Embeds `parseEpisode(itemXml)` (build.js lines 68-114).  `jsDate`
models `new Date(pubDate)` as an opaque timestamp function. -/
def parseEpisodeWith (jsDate : String → Int) (itemXml : String) : Episode :=
  let title := getCDATA (getTagContent itemXml "title")
  let description := getCDATA (getTagContent itemXml "description")
  let pubDate := getTagContent itemXml "pubDate"
  let duration := getTagContent itemXml "itunes:duration"
  let episode := getTagContent itemXml "itunes:episode"
  let season := getTagContent itemXml "itunes:season"
  let explicit := getTagContent itemXml "itunes:explicit"
  let summary := getCDATA (jsOr (getTagContent itemXml "itunes:summary") (getTagContent itemXml "description"))
  let audioUrl := getAttr itemXml "enclosure" "url"
  let episodeImage := getAttr itemXml "itunes:image" "href"
  let guid := getTagContent itemXml "guid"
  let buzzsproutId := buzzsproutIdOf audioUrl
  let episodeNum :=
    if episode ≠ "" then episode
    else
      match leadNumDigits title with
      | some ds => (⟨ds⟩ : String)
      | none => ""
  { title := stripLeadingNum title
    fullTitle := title
    description := description
    summary := summary
    pubDate := pubDate
    date := jsDate pubDate
    duration := formatDuration duration
    durationRaw := duration
    episode := episodeNum
    season := jsOr season "1"
    explicit := (explicit == "true" || explicit == "yes")
    audioUrl := audioUrl
    episodeImage := episodeImage
    buzzsproutId := buzzsproutId
    guid := guid }

-- ─── Episode sort (build.js lines 543-549) ─────────────────────────────────

/-- The effective sort key `parseInt(e.episode) || 0`: an unparsable
episode number is treated as 0 (and a parsed 0, being falsy, also maps
to the same 0). -/
def sortKeyNum (e : Episode) : Int := (jsParseIntND e.episode).getD 0

/-- The JS sort comparator of build.js lines 543-549: descending by parsed
episode number, ties broken by descending date. -/
def epCompare (a b : Episode) : Int :=
  if sortKeyNum a ≠ sortKeyNum b then sortKeyNum b - sortKeyNum a
  else b.date - a.date

def epLe (a b : Episode) : Bool := decide (epCompare a b ≤ 0)

/-- Embeds `items.map(parseEpisode).sort(comparator)`: a stable sort by the
comparator order (modern JS `Array.prototype.sort` is stable, as is
`List.mergeSort`). -/
def sortEpisodes (l : List Episode) : List Episode := l.mergeSort epLe

-- ─── Page renderers (build.js lines 136-455) ───────────────────────────────

/-- Channel-level podcast metadata (build.js lines 525-531). -/
structure PodcastMeta where
  title : String
  description : String
  author : String
  image : String
  link : String
deriving DecidableEq

/-- Embeds `ep.description.replace(/^Send us a text/i, '')` (build.js
line 436, show-notes body): unlike `cleanDescription` there is no `\s*`,
so whitespace after the prefix is kept. -/
def stripSendNotes (text : String) : String :=
  if ciIsPfx sendPfxL text.data then ⟨text.data.drop sendPfxL.length⟩ else text

/-- The `const recent = episodes.slice(0, 6)` of `generateHomePage`
(build.js line 265). -/
def homeRecent (episodes : List Episode) : List Episode := episodes.take 6

/-- The replace `.replace(/href="(?!http|#|mailto)/g, 'href="../')` of
build.js lines 412 and 451. -/
def hrefRelativize (l : List Char) : List Char :=
  jsReplaceScan "href=\"".data "href=\"../".data
    (fun r => !("http".data.isPrefixOf r || "#".data.isPrefixOf r || "mailto".data.isPrefixOf r)) l

/-- The replace `.replace(/src="(?!http|#|mailto)/g, 'src="../')` of
build.js lines 412 and 451. -/
def srcRelativize (l : List Char) : List Char :=
  jsReplaceScan "src=\"".data "src=\"../".data
    (fun r => !("http".data.isPrefixOf r || "#".data.isPrefixOf r || "mailto".data.isPrefixOf r)) l

/-- Both relativizing replaces, in source order (`href` first). -/
def relativizeAssets (s : String) : String := ⟨srcRelativize (hrefRelativize s.data)⟩

/-- The replace `.replace(/href="episodes\//g, 'href="')` applied to the
sidebar on episode pages (build.js line 447). -/
def sidebarDerooted (s : String) : String :=
  ⟨jsReplaceAll "href=\"episodes/".data "href=\"".data s.data⟩

/-- The `findIndex` of build.js line 385; JS returns `-1` when absent. -/
def epIndexOf (allEpisodes : List Episode) (ep : Episode) : Int :=
  match allEpisodes.findIdx? (fun e => e.episode == ep.episode) with
  | some i => (i : Int)
  | none => -1

/-- JS array subscript `l[i]`: `undefined` (here `none`) when out of range
on either side. -/
def jsArrGet (l : List Episode) (i : Int) : Option Episode :=
  if 0 ≤ i then l.get? i.toNat else none

/-- The `prevEp = allEpisodes[epIndex + 1]` (next older) of build.js line 386. -/
def prevEpOf (allEpisodes : List Episode) (ep : Episode) : Option Episode :=
  jsArrGet allEpisodes (epIndexOf allEpisodes ep + 1)

/-- The `nextEp = allEpisodes[epIndex - 1]` (next newer) of build.js line 387. -/
def nextEpOf (allEpisodes : List Episode) (ep : Episode) : Option Episode :=
  jsArrGet allEpisodes (epIndexOf allEpisodes ep - 1)

/-- Embeds `faviconHTML(prefix)` (build.js lines 157-161); the JS
parameter is named `prefix`. -/
def faviconHTML (pfx : String) : String :=
  "\n  <link rel=\"apple-touch-icon\" sizes=\"180x180\" href=\"" ++
  (pfx) ++
  "images/apple-touch-icon.png\">\n  <link rel=\"icon\" type=\"image/png\" sizes=\"32x32\" href=\"" ++
  (pfx) ++
  "images/favicon-32x32.png\">"

/-- Embeds `navHTML(activePage)` (build.js lines 163-195). -/
def navHTML (activePage : String) : String :=
  "\n  <!-- Top Banner -->\n  <div class=\"top-banner\">\n    <a href=\"https://survivorscience.com\" target=\"_blank\" rel=\"noopener\">Go to Main Survivor Science Site</a>\n  </div>\n\n  <!-- Navigation -->\n  <nav class=\"main-nav\">\n    <div class=\"nav-container\">\n      <a href=\"index.html\" class=\"nav-logo\">\n        <img src=\"images/podcast-artwork.jpg\" alt=\"Survivor Science\" class=\"nav-logo-img\">\n        <span class=\"nav-logo-text\">Survivor Science</span>\n      </a>\n      <button class=\"nav-toggle\" aria-label=\"Toggle navigation\">\n        <span></span><span></span><span></span>\n      </button>\n      <div class=\"nav-links\">\n        <a href=\"index.html\" class=\"" ++
  (if activePage == "home" then "active" else "") ++
  "\">Home</a>\n        <a href=\"about.html\" class=\"" ++
  (if activePage == "about" then "active" else "") ++
  "\">About</a>\n        <a href=\"episodes.html\" class=\"" ++
  (if activePage == "episodes" then "active" else "") ++
  "\">Episodes</a>\n        <a href=\"https://survivorscience.com/contact\" target=\"_blank\" rel=\"noopener\">Contact</a>\n        <div class=\"nav-social\">\n          <a href=\"https://twitter.com/SurvivorSciHQ\" target=\"_blank\" rel=\"noopener\" aria-label=\"Twitter\"><svg width=\"18\" height=\"18\" viewBox=\"0 0 24 24\" fill=\"currentColor\"><path d=\"M18.244 2.25h3.308l-7.227 8.26 8.502 11.24H16.17l-5.214-6.817L4.99 21.75H1.68l7.73-8.835L1.254 2.25H8.08l4.713 6.231zm-1.161 17.52h1.833L7.084 4.126H5.117z\"/></svg></a>\n          <a href=\"https://www.linkedin.com/in/willschmierer/\" target=\"_blank\" rel=\"noopener\" aria-label=\"LinkedIn\"><svg width=\"18\" height=\"18\" viewBox=\"0 0 24 24\" fill=\"currentColor\"><path d=\"M20.447 20.452h-3.554v-5.569c0-1.328-.027-3.037-1.852-3.037-1.853 0-2.136 1.445-2.136 2.939v5.667H9.351V9h3.414v1.561h.046c.477-.9 1.637-1.85 3.37-1.85 3.601 0 4.267 2.37 4.267 5.455v6.286zM5.337 7.433a2.062 2.062 0 01-2.063-2.065 2.064 2.064 0 112.063 2.065zm1.782 13.019H3.555V9h3.564v11.452zM22.225 0H1.771C.792 0 0 .774 0 1.729v20.542C0 23.227.792 24 1.771 24h20.451C23.2 24 24 23.227 24 22.271V1.729C24 .774 23.2 0 22.222 0h.003z\"/></svg></a>\n          <a href=\"https://www.tiktok.com/@SurvivorScienceHQ\" target=\"_blank\" rel=\"noopener\" aria-label=\"TikTok\"><svg width=\"18\" height=\"18\" viewBox=\"0 0 24 24\" fill=\"currentColor\"><path d=\"M12.525.02c1.31-.02 2.61-.01 3.91-.02.08 1.53.63 3.09 1.75 4.17 1.12 1.11 2.7 1.62 4.24 1.79v4.03c-1.44-.05-2.89-.35-4.2-.97-.57-.26-1.1-.59-1.62-.93-.01 2.92.01 5.84-.02 8.75-.08 1.4-.54 2.79-1.35 3.94-1.31 1.92-3.58 3.17-5.91 3.21-1.43.08-2.86-.31-4.08-1.03-2.02-1.19-3.44-3.37-3.65-5.71-.02-.5-.03-1-.01-1.49.18-1.9 1.12-3.72 2.58-4.96 1.66-1.44 3.98-2.13 6.15-1.72.02 1.48-.04 2.96-.04 4.44-.99-.32-2.15-.23-3.02.37-.63.41-1.11 1.04-1.36 1.75-.21.51-.15 1.07-.14 1.61.24 1.64 1.82 3.02 3.5 2.87 1.12-.01 2.19-.66 2.77-1.61.19-.33.4-.67.41-1.06.1-1.79.06-3.57.07-5.36.01-4.03-.01-8.05.02-12.07z\"/></svg></a>\n          <a href=\"https://www.instagram.com/SurvivorScienceHQ/\" target=\"_blank\" rel=\"noopener\" aria-label=\"Instagram\"><svg width=\"18\" height=\"18\" viewBox=\"0 0 24 24\" fill=\"currentColor\"><path d=\"M12 2.163c3.204 0 3.584.012 4.85.07 3.252.148 4.771 1.691 4.919 4.919.058 1.265.069 1.645.069 4.849 0 3.205-.012 3.584-.069 4.849-.149 3.225-1.664 4.771-4.919 4.919-1.266.058-1.644.07-4.85.07-3.204 0-3.584-.012-4.849-.07-3.26-.149-4.771-1.699-4.919-4.92-.058-1.265-.07-1.644-.07-4.849 0-3.204.013-3.583.07-4.849.149-3.227 1.664-4.771 4.919-4.919 1.266-.057 1.645-.069 4.849-.069zM12 0C8.741 0 8.333.014 7.053.072 2.695.272.273 2.69.073 7.052.014 8.333 0 8.741 0 12c0 3.259.014 3.668.072 4.948.2 4.358 2.618 6.78 6.98 6.98C8.333 23.986 8.741 24 12 24c3.259 0 3.668-.014 4.948-.072 4.354-.2 6.782-2.618 6.979-6.98.059-1.28.073-1.689.073-4.948 0-3.259-.014-3.667-.072-4.947-.196-4.354-2.617-6.78-6.979-6.98C15.668.014 15.259 0 12 0zm0 5.838a6.162 6.162 0 100 12.324 6.162 6.162 0 000-12.324zM12 16a4 4 0 110-8 4 4 0 010 8zm6.406-11.845a1.44 1.44 0 100 2.881 1.44 1.44 0 000-2.881z\"/></svg></a>\n          <a href=\"https://www.youtube.com/@SurvivorScienceHQ\" target=\"_blank\" rel=\"noopener\" aria-label=\"YouTube\"><svg width=\"18\" height=\"18\" viewBox=\"0 0 24 24\" fill=\"currentColor\"><path d=\"M23.498 6.186a3.016 3.016 0 00-2.122-2.136C19.505 3.545 12 3.545 12 3.545s-7.505 0-9.377.505A3.017 3.017 0 00.502 6.186C0 8.07 0 12 0 12s0 3.93.502 5.814a3.016 3.016 0 002.122 2.136c1.871.505 9.376.505 9.376.505s7.505 0 9.377-.505a3.015 3.015 0 002.122-2.136C24 15.93 24 12 24 12s0-3.93-.502-5.814zM9.545 15.568V8.432L15.818 12l-6.273 3.568z\"/></svg></a>\n        </div>\n      </div>\n    </div>\n  </nav>"

/-- Embeds `footerHTML()` (build.js lines 197-229). -/
def footerHTML : String :=
  "\n  <footer class=\"site-footer\">\n    <div class=\"footer-container\">\n      <div class=\"footer-about\">\n        <div class=\"footer-logo\">Survivor Science</div>\n        <p>The Survivor Science Podcast is about sharing the struggles, successes, and science behind, navigating your second chance at life!</p>\n        <p>We are building a community of survivors of all kinds to learn, grow, share and connect from each other and individual experiences to help others learn what works as well!</p>\n        <p>Whether it\x27s tips for managing daily tasks or advice for how to stay motivated, we\x27ve got you covered on the road to recovery. You don\x27t have to go out alone!</p>\n      </div>\n      <div class=\"footer-links\">\n        <div class=\"footer-col\">\n          <a href=\"episodes.html\">Episodes</a>\n          <a href=\"about.html\">About</a>\n        </div>\n        <div class=\"footer-col\">\n          <a href=\"https://survivorscience.com/contact\" target=\"_blank\" rel=\"noopener\">Contact</a>\n          <a href=\"https://survivorscience.com\" target=\"_blank\" rel=\"noopener\">Main Site</a>\n        </div>\n      </div>\n      <div class=\"footer-social\">\n        <a href=\"https://twitter.com/SurvivorSciHQ\" target=\"_blank\" rel=\"noopener\" aria-label=\"Twitter\"><svg width=\"20\" height=\"20\" viewBox=\"0 0 24 24\" fill=\"currentColor\"><path d=\"M18.244 2.25h3.308l-7.227 8.26 8.502 11.24H16.17l-5.214-6.817L4.99 21.75H1.68l7.73-8.835L1.254 2.25H8.08l4.713 6.231zm-1.161 17.52h1.833L7.084 4.126H5.117z\"/></svg></a>\n        <a href=\"https://www.linkedin.com/in/willschmierer/\" target=\"_blank\" rel=\"noopener\" aria-label=\"LinkedIn\"><svg width=\"20\" height=\"20\" viewBox=\"0 0 24 24\" fill=\"currentColor\"><path d=\"M20.447 20.452h-3.554v-5.569c0-1.328-.027-3.037-1.852-3.037-1.853 0-2.136 1.445-2.136 2.939v5.667H9.351V9h3.414v1.561h.046c.477-.9 1.637-1.85 3.37-1.85 3.601 0 4.267 2.37 4.267 5.455v6.286zM5.337 7.433a2.062 2.062 0 01-2.063-2.065 2.064 2.064 0 112.063 2.065zm1.782 13.019H3.555V9h3.564v11.452zM22.225 0H1.771C.792 0 0 .774 0 1.729v20.542C0 23.227.792 24 1.771 24h20.451C23.2 24 24 23.227 24 22.271V1.729C24 .774 23.2 0 22.222 0h.003z\"/></svg></a>\n        <a href=\"https://www.tiktok.com/@SurvivorScienceHQ\" target=\"_blank\" rel=\"noopener\" aria-label=\"TikTok\"><svg width=\"20\" height=\"20\" viewBox=\"0 0 24 24\" fill=\"currentColor\"><path d=\"M12.525.02c1.31-.02 2.61-.01 3.91-.02.08 1.53.63 3.09 1.75 4.17 1.12 1.11 2.7 1.62 4.24 1.79v4.03c-1.44-.05-2.89-.35-4.2-.97-.57-.26-1.1-.59-1.62-.93-.01 2.92.01 5.84-.02 8.75-.08 1.4-.54 2.79-1.35 3.94-1.31 1.92-3.58 3.17-5.91 3.21-1.43.08-2.86-.31-4.08-1.03-2.02-1.19-3.44-3.37-3.65-5.71-.02-.5-.03-1-.01-1.49.18-1.9 1.12-3.72 2.58-4.96 1.66-1.44 3.98-2.13 6.15-1.72.02 1.48-.04 2.96-.04 4.44-.99-.32-2.15-.23-3.02.37-.63.41-1.11 1.04-1.36 1.75-.21.51-.15 1.07-.14 1.61.24 1.64 1.82 3.02 3.5 2.87 1.12-.01 2.19-.66 2.77-1.61.19-.33.4-.67.41-1.06.1-1.79.06-3.57.07-5.36.01-4.03-.01-8.05.02-12.07z\"/></svg></a>\n        <a href=\"https://www.instagram.com/SurvivorScienceHQ/\" target=\"_blank\" rel=\"noopener\" aria-label=\"Instagram\"><svg width=\"20\" height=\"20\" viewBox=\"0 0 24 24\" fill=\"currentColor\"><path d=\"M12 2.163c3.204 0 3.584.012 4.85.07 3.252.148 4.771 1.691 4.919 4.919.058 1.265.069 1.645.069 4.849 0 3.205-.012 3.584-.069 4.849-.149 3.225-1.664 4.771-4.919 4.919-1.266.058-1.644.07-4.85.07-3.204 0-3.584-.012-4.849-.07-3.26-.149-4.771-1.699-4.919-4.92-.058-1.265-.07-1.644-.07-4.849 0-3.204.013-3.583.07-4.849.149-3.227 1.664-4.771 4.919-4.919 1.266-.057 1.645-.069 4.849-.069zM12 0C8.741 0 8.333.014 7.053.072 2.695.272.273 2.69.073 7.052.014 8.333 0 8.741 0 12c0 3.259.014 3.668.072 4.948.2 4.358 2.618 6.78 6.98 6.98C8.333 23.986 8.741 24 12 24c3.259 0 3.668-.014 4.948-.072 4.354-.2 6.782-2.618 6.979-6.98.059-1.28.073-1.689.073-4.948 0-3.259-.014-3.667-.072-4.947-.196-4.354-2.617-6.78-6.979-6.98C15.668.014 15.259 0 12 0zm0 5.838a6.162 6.162 0 100 12.324 6.162 6.162 0 000-12.324zM12 16a4 4 0 110-8 4 4 0 010 8zm6.406-11.845a1.44 1.44 0 100 2.881 1.44 1.44 0 000-2.881z\"/></svg></a>\n        <a href=\"https://www.youtube.com/@SurvivorScienceHQ\" target=\"_blank\" rel=\"noopener\" aria-label=\"YouTube\"><svg width=\"20\" height=\"20\" viewBox=\"0 0 24 24\" fill=\"currentColor\"><path d=\"M23.498 6.186a3.016 3.016 0 00-2.122-2.136C19.505 3.545 12 3.545 12 3.545s-7.505 0-9.377.505A3.017 3.017 0 00.502 6.186C0 8.07 0 12 0 12s0 3.93.502 5.814a3.016 3.016 0 002.122 2.136c1.871.505 9.376.505 9.376.505s7.505 0 9.377-.505a3.015 3.015 0 002.122-2.136C24 15.93 24 12 24 12s0-3.93-.502-5.814zM9.545 15.568V8.432L15.818 12l-6.273 3.568z\"/></svg></a>\n      </div>\n    </div>\n    <div class=\"footer-bottom\">\n      <span>&copy; Survivor Science</span>\n    </div>\n  </footer>"

/-- The per-episode item of the sidebar recent-episodes list: the body
of the `recentEps.map` template (build.js lines 246-248).  Note the
title interpolation `${ep.title}`. -/
def sidebarItemHTML (ep : Episode) : String :=
  "\n          <li><a href=\"episodes/" ++
  (ep.episode) ++
  ".html\">" ++
  (if ep.episode != "" then ep.episode ++ ". " else "") ++
  (ep.title) ++
  "</a></li>\n          "

/-- Embeds `sidebarHTML(episodes)` (build.js lines 231-253);
`recentEps = episodes.slice(0, 10)`. -/
def sidebarHTML (episodes : List Episode) : String :=
  "\n    <aside class=\"sidebar\">\n      <div class=\"sidebar-listen\">\n        <h3>LISTEN ON</h3>\n        <ul class=\"listen-links\">\n          <li><a href=\"https://podcasts.apple.com/us/podcast/survivor-science/id1667418261\" target=\"_blank\" rel=\"noopener\"><svg width=\"20\" height=\"20\" viewBox=\"0 0 24 24\" fill=\"#872ec4\"><path d=\"M5.34 0A5.328 5.328 0 000 5.34v13.32A5.328 5.328 0 005.34 24h13.32A5.328 5.328 0 0024 18.66V5.34A5.328 5.328 0 0018.66 0zm6.525 2.568c2.336 0 4.448.902 6.056 2.587 1.076 1.126 1.772 2.445 2.064 3.93.122.62-.26 1.22-.853 1.342a1.088 1.088 0 01-1.283-.856c-.213-1.078-.72-2.038-1.506-2.86C14.985 5.29 13.4 4.58 11.676 4.6c-1.724.02-3.3.753-4.622 2.18-.79.852-1.27 1.826-1.454 2.91-.152.614-.762.988-1.36.836a1.102 1.102 0 01-.834-1.363c.258-1.494.924-2.833 1.978-3.983 1.582-1.727 3.672-2.655 6.04-2.612zm.18 3.252c1.604.008 3.064.678 4.1 1.804.712.774 1.156 1.678 1.333 2.696.112.638-.316 1.244-.948 1.356a1.102 1.102 0 01-1.282-.88 3.124 3.124 0 00-.764-1.538c-.59-.644-1.426-1.025-2.348-1.035-.928-.012-1.772.352-2.376.984-.434.454-.732.992-.87 1.57-.165.606-.79.964-1.398.798a1.1 1.1 0 01-.79-1.398 5.36 5.36 0 011.503-2.706c.984-1.024 2.33-1.632 3.782-1.654zm-.032 4.804c1.172-.012 2.156.924 2.156 2.124-.002.396-.124.768-.328 1.09l-.004.01-.016.02c-.04.06-.082.117-.127.17l-1.486 3.03c-.248.554-.842.71-1.312.482a.986.986 0 01-.478-1.316l.008-.018 1.112-2.272-.034-.002a2.138 2.138 0 01-.663-.358 2.103 2.103 0 01-.796-1.638c-.008-1.196.798-2.31 1.968-2.322z\"/></svg> Apple Podcasts</a></li>\n          <li><a href=\"https://open.spotify.com/show/1Pn79nkerjQ7vXK0V2Wfif\" target=\"_blank\" rel=\"noopener\"><svg width=\"20\" height=\"20\" viewBox=\"0 0 24 24\" fill=\"#1DB954\"><path d=\"M12 0C5.4 0 0 5.4 0 12s5.4 12 12 12 12-5.4 12-12S18.66 0 12 0zm5.521 17.34c-.24.359-.66.48-1.021.24-2.82-1.74-6.36-2.101-10.561-1.141-.418.122-.779-.179-.899-.539-.12-.421.18-.78.54-.9 4.56-1.021 8.52-.6 11.64 1.32.42.18.479.659.301 1.02zm1.44-3.3c-.301.42-.841.6-1.262.3-3.239-1.98-8.159-2.58-11.939-1.38-.479.12-1.02-.12-1.14-.6-.12-.48.12-1.021.6-1.141C9.6 9.9 15 10.561 18.72 12.84c.361.181.54.78.241 1.2zm.12-3.36C15.24 8.4 8.82 8.16 5.16 9.301c-.6.179-1.2-.181-1.38-.721-.18-.601.18-1.2.72-1.381 4.26-1.26 11.28-1.02 15.721 1.621.539.3.719 1.02.419 1.56-.299.421-1.02.599-1.559.3z\"/></svg> Spotify</a></li>\n          <li><a href=\"https://rss.buzzsprout.com/2117363.rss\" target=\"_blank\" rel=\"noopener\"><svg width=\"20\" height=\"20\" viewBox=\"0 0 24 24\" fill=\"#f26522\"><path d=\"M6.503 20.752c0 1.794-1.456 3.248-3.251 3.248-1.796 0-3.252-1.454-3.252-3.248 0-1.794 1.456-3.248 3.252-3.248 1.795.001 3.251 1.454 3.251 3.248zm-6.503-12.572v4.811c6.05.062 10.96 4.966 11.022 11.009h4.817c-.062-8.71-7.118-15.758-15.839-15.82zm0-8.18v4.819c12.951.115 23.424 10.617 23.5 23.581h4.82c-.077-15.683-12.818-28.395-28.32-28.4z\"/></svg> RSS Feed</a></li>\n        </ul>\n      </div>\n      <div class=\"sidebar-recent\">\n        <h3>RECENT EPISODES</h3>\n        <ul class=\"recent-episodes-list\">\n          " ++
  (String.join (((episodes.take 10)).map sidebarItemHTML)) ++
  "\n        </ul>\n        <a href=\"episodes.html\" class=\"see-all\">See all &rarr;</a>\n      </div>\n    </aside>"

/-- Embeds `listenOnHTML()` (build.js lines 255-261). -/
def listenOnHTML : String :=
  "\n  <div class=\"listen-on-buttons\">\n    <a href=\"https://podcasts.apple.com/us/podcast/survivor-science/id1667418261\" target=\"_blank\" rel=\"noopener\" class=\"listen-btn\"><svg width=\"20\" height=\"20\" viewBox=\"0 0 24 24\" fill=\"#872ec4\"><path d=\"M5.34 0A5.328 5.328 0 000 5.34v13.32A5.328 5.328 0 005.34 24h13.32A5.328 5.328 0 0024 18.66V5.34A5.328 5.328 0 0018.66 0zm6.525 2.568c2.336 0 4.448.902 6.056 2.587 1.076 1.126 1.772 2.445 2.064 3.93.122.62-.26 1.22-.853 1.342a1.088 1.088 0 01-1.283-.856c-.213-1.078-.72-2.038-1.506-2.86C14.985 5.29 13.4 4.58 11.676 4.6c-1.724.02-3.3.753-4.622 2.18-.79.852-1.27 1.826-1.454 2.91-.152.614-.762.988-1.36.836a1.102 1.102 0 01-.834-1.363c.258-1.494.924-2.833 1.978-3.983 1.582-1.727 3.672-2.655 6.04-2.612zm.18 3.252c1.604.008 3.064.678 4.1 1.804.712.774 1.156 1.678 1.333 2.696.112.638-.316 1.244-.948 1.356a1.102 1.102 0 01-1.282-.88 3.124 3.124 0 00-.764-1.538c-.59-.644-1.426-1.025-2.348-1.035-.928-.012-1.772.352-2.376.984-.434.454-.732.992-.87 1.57-.165.606-.79.964-1.398.798a1.1 1.1 0 01-.79-1.398 5.36 5.36 0 011.503-2.706c.984-1.024 2.33-1.632 3.782-1.654zm-.032 4.804c1.172-.012 2.156.924 2.156 2.124-.002.396-.124.768-.328 1.09l-.004.01-.016.02c-.04.06-.082.117-.127.17l-1.486 3.03c-.248.554-.842.71-1.312.482a.986.986 0 01-.478-1.316l.008-.018 1.112-2.272-.034-.002a2.138 2.138 0 01-.663-.358 2.103 2.103 0 01-.796-1.638c-.008-1.196.798-2.31 1.968-2.322z\"/></svg> Apple Podcasts</a>\n    <a href=\"https://open.spotify.com/show/1Pn79nkerjQ7vXK0V2Wfif\" target=\"_blank\" rel=\"noopener\" class=\"listen-btn\"><svg width=\"20\" height=\"20\" viewBox=\"0 0 24 24\" fill=\"#1DB954\"><path d=\"M12 0C5.4 0 0 5.4 0 12s5.4 12 12 12 12-5.4 12-12S18.66 0 12 0zm5.521 17.34c-.24.359-.66.48-1.021.24-2.82-1.74-6.36-2.101-10.561-1.141-.418.122-.779-.179-.899-.539-.12-.421.18-.78.54-.9 4.56-1.021 8.52-.6 11.64 1.32.42.18.479.659.301 1.02zm1.44-3.3c-.301.42-.841.6-1.262.3-3.239-1.98-8.159-2.58-11.939-1.38-.479.12-1.02-.12-1.14-.6-.12-.48.12-1.021.6-1.141C9.6 9.9 15 10.561 18.72 12.84c.361.181.54.78.241 1.2zm.12-3.36C15.24 8.4 8.82 8.16 5.16 9.301c-.6.179-1.2-.181-1.38-.721-.18-.601.18-1.2.72-1.381 4.26-1.26 11.28-1.02 15.721 1.621.539.3.719 1.02.419 1.56-.299.421-1.02.599-1.559.3z\"/></svg> Spotify</a>\n  </div>"

/-- Embeds `episodeCardHTML(ep)` (build.js lines 327-342); `fd` is the
`formatDate` parameter. -/
def episodeCardHTML (fd : Int → String) (ep : Episode) : String :=
  "\n          <article class=\"episode-card\">\n            <a href=\"episodes/" ++
  (ep.episode) ++
  ".html\" class=\"episode-card-image\">\n              <img src=\"" ++
  (jsOr ep.episodeImage "images/podcast-artwork.jpg") ++
  "\" alt=\"" ++
  (escapeHtml ep.fullTitle) ++
  "\" loading=\"lazy\">\n            </a>\n            <div class=\"episode-card-content\">\n              <time class=\"episode-date\">" ++
  (fd ep.date) ++
  "</time>\n              <h3 class=\"episode-card-title\">\n                <a href=\"episodes/" ++
  (ep.episode) ++
  ".html\">" ++
  (if ep.episode != "" then ep.episode ++ ". " else "") ++
  (escapeHtml ep.title) ++
  "</a>\n              </h3>\n              <p class=\"episode-card-desc\">" ++
  (escapeHtml (truncate ep.description 180)) ++
  "</p>\n              <a href=\"episodes/" ++
  (ep.episode) ++
  ".html\" class=\"episode-listen-link\">&rarr; Listen to the Episode</a>\n            </div>\n          </article>"

/-- The hero title interpolation of build.js line 292:
`${latest.episode ? latest.episode + '. ' : ''}${escapeHtml(latest.title)}`. -/
def heroTitleHTML (latest : Episode) : String :=
  (if latest.episode != "" then latest.episode ++ ". " else "") ++ escapeHtml latest.title

/-- The home-page document up to (and including) the opening of the hero
title `<h1>` (build.js lines 267-292). -/
def homeBodyA (podcastMeta : PodcastMeta) : String :=
  "<!DOCTYPE html>\n<html lang=\"en\">\n<head>\n  <meta charset=\"UTF-8\">\n  <meta name=\"viewport\" content=\"width=device-width, initial-scale=1.0\">\n  <title>Survivor Science Podcast Archive</title>\n  <meta name=\"description\" content=\"" ++
  (escapeHtml (cleanDescription (stripHtml podcastMeta.description))) ++
  "\">\n  <meta property=\"og:title\" content=\"Survivor Science Podcast Archive\">\n  <meta property=\"og:description\" content=\"" ++
  (escapeHtml (cleanDescription (stripHtml podcastMeta.description))) ++
  "\">\n  <meta property=\"og:image\" content=\"images/og-image.png\">\n  <meta property=\"og:type\" content=\"website\">\n  " ++
  (faviconHTML "") ++
  "\n  <link rel=\"preconnect\" href=\"https://fonts.googleapis.com\">\n  <link rel=\"preconnect\" href=\"https://fonts.gstatic.com\" crossorigin>\n  <link href=\"https://fonts.googleapis.com/css2?family=Figtree:wght@400;500;600;700;800;900&display=swap\" rel=\"stylesheet\">\n  <link rel=\"stylesheet\" href=\"css/style.css\">\n</head>\n<body>\n  " ++
  (navHTML "home") ++
  "\n\n  <!-- Hero Section -->\n  <section class=\"hero\">\n    <div class=\"hero-container\">\n      <div class=\"hero-content\">\n        <span class=\"hero-label\">LATEST EPISODE</span>\n        <h1 class=\"hero-title\">"

/-- The literal between the hero title and the hero description
(build.js lines 292-293). -/
def heroDescPre : String := "</h1>\n        <p class=\"hero-description\">"

/-- The home-page document after the hero description: hero link,
recent-episodes grid (`recent = episodes.slice(0, 6)`), sidebar and
footer (build.js lines 293-324). -/
def homeBodyC (fd : Int → String) (episodes : List Episode) (latest : Episode) : String :=
  "</p>\n        <a href=\"episodes/" ++
  (latest.episode) ++
  ".html\" class=\"btn-play\">\n          <svg width=\"18\" height=\"18\" viewBox=\"0 0 24 24\" fill=\"white\"><path d=\"M8 5v14l11-7z\"/></svg>\n          Play Latest Episode\n        </a>\n      </div>\n      <div class=\"hero-artwork\">\n        <img src=\"images/podcast-artwork.jpg\" alt=\"Survivor Science Podcast Artwork\">\n      </div>\n    </div>\n  </section>\n\n  <!-- Recent Episodes -->\n  <section class=\"recent-episodes\">\n    <div class=\"recent-container\">\n      <div class=\"recent-main\">\n        <div class=\"section-header\">\n          <h2>Recent Episodes</h2>\n          <a href=\"episodes.html\" class=\"view-all\">View all &rarr;</a>\n        </div>\n        <div class=\"episode-grid\">\n          " ++
  (String.join ((homeRecent episodes).map (episodeCardHTML fd))) ++
  "\n        </div>\n      </div>\n      " ++
  (sidebarHTML episodes) ++
  "\n    </div>\n  </section>\n\n  " ++
  (footerHTML) ++
  "\n  <script src=\"js/main.js\"></script>\n</body>\n</html>"

/-- The full document returned by `generateHomePage` for a non-empty
collection, with `latest = episodes[0]` (build.js lines 263-325). -/
def homePageBody (fd : Int → String) (episodes : List Episode) (latest : Episode)
    (podcastMeta : PodcastMeta) : String :=
  homeBodyA podcastMeta ++ heroTitleHTML latest ++ heroDescPre ++
    escapeHtml (truncate latest.description 250) ++ homeBodyC fd episodes latest

/-- Embeds `generateHomePage(episodes, podcastMeta)` (build.js lines
263-325).  On an empty collection the source dereferences `.episode` on
`undefined` (`episodes[0]`) and throws, modelled as `none`. -/
def generateHomePage (fd : Int → String) (episodes : List Episode)
    (podcastMeta : PodcastMeta) : Option String :=
  match episodes with
  | [] => none
  | latest :: _ => some (homePageBody fd episodes latest podcastMeta)

/-- The Buzzsprout iframe branch of `playerEmbed` (build.js line 391). -/
def playerIframeHTML (ep : Episode) : String :=
  "<div class=\"buzzsprout-player\"><iframe src=\"https://www.buzzsprout.com/2117363/" ++
  (ep.buzzsproutId) ++
  "?client_source=small_player&iframe=true\" loading=\"lazy\" width=\"100%\" height=\"200\" frameborder=\"0\" scrolling=\"no\" title=\"Survivor Science, " ++
  (escapeHtml ep.fullTitle) ++
  "\"></iframe></div>"

/-- The plain audio-element branch of `playerEmbed` (build.js line 392). -/
def playerAudioHTML (ep : Episode) : String :=
  "<audio controls preload=\"none\" class=\"episode-audio\"><source src=\"" ++
  (ep.audioUrl) ++
  "\" type=\"audio/mpeg\">Your browser does not support the audio element.</audio>"

/-- The `playerEmbed` ternary of build.js lines 390-392. -/
def playerEmbedHTML (ep : Episode) : String :=
  if ep.buzzsproutId != "" then playerIframeHTML ep else playerAudioHTML ep

/-- The previous-episode anchor of build.js line 441. -/
def prevLinkBody (p : Episode) : String :=
  "<a href=\"" ++
  (p.episode) ++
  ".html\" class=\"episode-nav-link episode-nav-prev\">&larr; Episode " ++
  (p.episode) ++
  "</a>"

/-- The next-episode anchor of build.js line 443. -/
def nextLinkBody (p : Episode) : String :=
  "<a href=\"" ++
  (p.episode) ++
  ".html\" class=\"episode-nav-link episode-nav-next\">Episode " ++
  (p.episode) ++
  " &rarr;</a>"

/-- The `prevEp ? ... : '<span></span>'` ternary of build.js line 441. -/
def prevLinkHTML (p : Option Episode) : String :=
  match p with
  | some pe => prevLinkBody pe
  | none => "<span></span>"

/-- The `nextEp ? ... : '<span></span>'` ternary of build.js line 443. -/
def nextLinkHTML (p : Option Episode) : String :=
  match p with
  | some pe => nextLinkBody pe
  | none => "<span></span>"

/-- The episode-detail document up to the previous-episode navigation
slot (build.js lines 394-441). -/
def epBodyA (fd : Int → String) (ep : Episode) : String :=
  "<!DOCTYPE html>\n<html lang=\"en\">\n<head>\n  <meta charset=\"UTF-8\">\n  <meta name=\"viewport\" content=\"width=device-width, initial-scale=1.0\">\n  <title>" ++
  (escapeHtml ep.fullTitle) ++
  " - Survivor Science Podcast</title>\n  <meta name=\"description\" content=\"" ++
  (escapeHtml (truncate ep.description 160)) ++
  "\">\n  <meta property=\"og:title\" content=\"" ++
  (escapeHtml (cleanDescription (stripHtml ep.fullTitle))) ++
  "\">\n  <meta property=\"og:description\" content=\"" ++
  (escapeHtml (truncate ep.description 160)) ++
  "\">\n  <meta property=\"og:image\" content=\"" ++
  (jsOr ep.episodeImage "images/podcast-artwork.jpg") ++
  "\">\n  <meta property=\"og:type\" content=\"article\">\n  " ++
  (faviconHTML "../") ++
  "\n  <link rel=\"preconnect\" href=\"https://fonts.googleapis.com\">\n  <link rel=\"preconnect\" href=\"https://fonts.gstatic.com\" crossorigin>\n  <link href=\"https://fonts.googleapis.com/css2?family=Figtree:wght@400;500;600;700;800;900&display=swap\" rel=\"stylesheet\">\n  <link rel=\"stylesheet\" href=\"../css/style.css\">\n</head>\n<body>\n  " ++
  (relativizeAssets (navHTML "episodes")) ++
  "\n\n  <article class=\"episode-detail\">\n    <div class=\"episode-detail-container\">\n      <div class=\"episode-detail-main\">\n        <time class=\"episode-date\">" ++
  (fd ep.date) ++
  "</time>\n        <h1 class=\"episode-detail-title\">" ++
  (if ep.episode != "" then ep.episode ++ ". " else "") ++
  (escapeHtml ep.title) ++
  "</h1>\n\n        <div class=\"episode-meta\">\n          " ++
  (if ep.duration != "" then "<span class=\"episode-duration\">" ++ ep.duration ++ "</span>" else "") ++
  "\n          " ++
  (if ep.season != "" then "<span class=\"episode-season\">Season " ++ ep.season ++ "</span>" else "") ++
  "\n        </div>\n\n        <div class=\"episode-artwork-large\">\n          <img src=\"" ++
  (jsOr ep.episodeImage "../images/podcast-artwork.jpg") ++
  "\" alt=\"" ++
  (escapeHtml ep.fullTitle) ++
  "\">\n        </div>\n\n        " ++
  (playerEmbedHTML ep) ++
  "\n\n        " ++
  (listenOnHTML) ++
  "\n\n        <div class=\"episode-show-notes\">\n          <h2>Show Notes</h2>\n          <div class=\"show-notes-content\">\n            " ++
  (stripSendNotes ep.description) ++
  "\n          </div>\n        </div>\n\n        <nav class=\"episode-nav\">\n          "

/-- The literal between the previous and next navigation slots
(build.js lines 441-443). -/
def epNavMid : String :=
  "\n          <a href=\"../episodes.html\" class=\"episode-nav-link episode-nav-all\">All Episodes</a>\n          "

/-- The episode-detail document after the next-episode navigation slot:
de-rooted sidebar and relativized footer (build.js lines 444-454). -/
def epBodyZ (allEpisodes : List Episode) : String :=
  "\n        </nav>\n      </div>\n\n      " ++
  (sidebarDerooted (sidebarHTML allEpisodes)) ++
  "\n    </div>\n  </article>\n\n  " ++
  (relativizeAssets footerHTML) ++
  "\n  <script src=\"../js/main.js\"></script>\n</body>\n</html>"

/-- The full document of `generateEpisodePage` (build.js lines 384-455). -/
def episodePageBody (fd : Int → String) (ep : Episode) (allEpisodes : List Episode) : String :=
  epBodyA fd ep ++ prevLinkHTML (prevEpOf allEpisodes ep) ++ epNavMid ++
    nextLinkHTML (nextEpOf allEpisodes ep) ++ epBodyZ allEpisodes

/-- Embeds `generateEpisodePage(ep, episodes, allEpisodes)` (build.js
lines 384-455).  The `episodes` parameter of the source is unused in
its body. -/
def generateEpisodePage (fd : Int → String) (ep : Episode)
    (episodes allEpisodes : List Episode) : String :=
  episodePageBody fd ep allEpisodes


-- ─── Proof infrastructure ──────────────────────────────────────────────────

theorem jsReplaceScan_nil (pat repl : List Char) (ok : List Char → Bool) :
    jsReplaceScan pat repl ok [] = [] := rfl

theorem jsReplaceScan_cons (pat repl : List Char) (ok : List Char → Bool) (c : Char)
    (rest : List Char) :
    jsReplaceScan pat repl ok (c :: rest) =
      if pat ≠ [] ∧ pat.isPrefixOf (c :: rest) = true ∧ ok ((c :: rest).drop pat.length) = true then
        repl ++ jsReplaceScan pat repl ok ((c :: rest).drop pat.length)
      else
        c :: jsReplaceScan pat repl ok rest := by
  show (if pat ≠ [] ∧ pat.isPrefixOf (c :: rest) = true ∧ ok ((c :: rest).drop pat.length) = true then
      repl ++ jsReplaceScanF pat repl ok rest.length ((c :: rest).drop pat.length)
    else
      c :: jsReplaceScanF pat repl ok rest.length rest) = _
  by_cases hc : pat ≠ [] ∧ pat.isPrefixOf (c :: rest) = true ∧ ok ((c :: rest).drop pat.length) = true
  · rw [if_pos hc, if_pos hc]
    have hple : pat.length ≤ (c :: rest).length :=
      isPrefixOf_length hc.2.1
    have hpos : 0 < pat.length := List.length_pos.mpr hc.1
    congr 1
    apply jsReplaceScanF_congr
    · simp only [List.length_drop, List.length_cons]
      simp only [List.length_cons] at hple
      omega
    · exact Nat.le_refl _
  · rw [if_neg hc, if_neg hc]
    rfl

/-- A global replace whose pattern is a single character is the pointwise
substitution of that character. -/
theorem jsReplaceAll_single (c : Char) (repl : List Char) (l : List Char) :
    jsReplaceAll [c] repl l = l.flatMap (fun x => if x = c then repl else [x]) := by
  induction l with
  | nil => simp [jsReplaceAll, jsReplaceScan_nil]
  | cons x rest ih =>
    unfold jsReplaceAll at *
    rw [jsReplaceScan_cons]
    by_cases hx : x = c
    · subst hx
      simp [List.isPrefixOf, ih]
    · have : ¬ ([c].isPrefixOf (x :: rest) = true) := by
        simp only [List.isPrefixOf, List.isPrefixOf_nil_left, Bool.and_true, beq_iff_eq]
        intro hcx
        exact hx hcx.symm
      simp only [ne_eq, this, false_and, and_false, if_false]
      simp [ih, hx]

/-- The per-character substitution performed by `escapeHtml` once the four
chained replaces are composed. -/
def escCharList (c : Char) : List Char :=
  if c = '&' then "&amp;".data
  else if c = '<' then "&lt;".data
  else if c = '>' then "&gt;".data
  else if c = '"' then "&quot;".data
  else [c]

theorem escapeHtml_data (s : String) :
    (escapeHtml s).data = s.data.flatMap escCharList := by
  show jsReplaceAll ['"'] "&quot;".data
      (jsReplaceAll ['>'] "&gt;".data
        (jsReplaceAll ['<'] "&lt;".data
          (jsReplaceAll ['&'] "&amp;".data s.data))) = _
  rw [jsReplaceAll_single, jsReplaceAll_single, jsReplaceAll_single, jsReplaceAll_single,
    List.flatMap_assoc, List.flatMap_assoc, List.flatMap_assoc]
  congr 1
  funext x
  by_cases h1 : x = '&'
  · subst h1; decide
  by_cases h2 : x = '<'
  · subst h2; decide
  by_cases h3 : x = '>'
  · subst h3; decide
  by_cases h4 : x = '"'
  · subst h4; decide
  simp [escCharList, h1, h2, h3, h4]

theorem mem_escCharList {x ch : Char} (h : ch ∈ escCharList x) :
    ch ≠ '<' ∧ ch ≠ '>' ∧ ch ≠ '"' := by
  by_cases h1 : x = '&'
  · subst h1
    have he : escCharList '&' = ['&', 'a', 'm', 'p', ';'] := rfl
    rw [he] at h
    simp only [List.mem_cons, List.not_mem_nil, or_false] at h
    rcases h with h | h | h | h | h <;> subst h <;> refine ⟨by decide, by decide, by decide⟩
  by_cases h2 : x = '<'
  · subst h2
    have he : escCharList '<' = ['&', 'l', 't', ';'] := rfl
    rw [he] at h
    simp only [List.mem_cons, List.not_mem_nil, or_false] at h
    rcases h with h | h | h | h <;> subst h <;> refine ⟨by decide, by decide, by decide⟩
  by_cases h3 : x = '>'
  · subst h3
    have he : escCharList '>' = ['&', 'g', 't', ';'] := rfl
    rw [he] at h
    simp only [List.mem_cons, List.not_mem_nil, or_false] at h
    rcases h with h | h | h | h <;> subst h <;> refine ⟨by decide, by decide, by decide⟩
  by_cases h4 : x = '"'
  · subst h4
    have he : escCharList '"' = ['&', 'q', 'u', 'o', 't', ';'] := rfl
    rw [he] at h
    simp only [List.mem_cons, List.not_mem_nil, or_false] at h
    rcases h with h | h | h | h | h | h <;> subst h <;> refine ⟨by decide, by decide, by decide⟩
  · have he : escCharList x = [x] := by simp [escCharList, h1, h2, h3, h4]
    rw [he] at h
    simp only [List.mem_singleton] at h
    subst h
    exact ⟨h2, h3, h4⟩

/-- Claim C9.  Every character of `escapeHtml`'s output differs from `<`,
`>` and `"`; the whole function is the pointwise substitution
`escCharList` (so every occurrence of the markup characters and of `&` is
replaced by its entity, `&` first by construction), and a single quote is
mapped to itself, i.e. passes through unescaped. -/
theorem escapeHtml_safe (s : String) :
    (∀ ch ∈ (escapeHtml s).data, ch ≠ '<' ∧ ch ≠ '>' ∧ ch ≠ '"') ∧
    (escapeHtml s).data = s.data.flatMap escCharList ∧ escCharList apos = [apos] := by
  refine ⟨?_, escapeHtml_data s, rfl⟩
  intro ch hch
  rw [escapeHtml_data] at hch
  obtain ⟨x, _, hmem⟩ := List.mem_flatMap.mp hch
  exact mem_escCharList hmem

/-- Witness for `escapeHtml_safe` at a concrete input. -/
theorem escapeHtml_safe_witness :
    (∀ ch ∈ (escapeHtml "<a href=\"x\">&\x27y\x27</a>").data, ch ≠ '<' ∧ ch ≠ '>' ∧ ch ≠ '"') ∧
    (escapeHtml "<a href=\"x\">&\x27y\x27</a>").data =
      "<a href=\"x\">&\x27y\x27</a>".data.flatMap escCharList ∧ escCharList apos = [apos] :=
  escapeHtml_safe "<a href=\"x\">&\x27y\x27</a>"

-- ─── Claim C2: formatDuration ──────────────────────────────────────────────

/-- Claim C2 counterexample: the claim asserts that the non-numeric raw
value "45 min" passes through unchanged, but JavaScript
`parseInt("45 min", 10)` reads the leading digits and yields 45, so the
code renders 45 seconds as "0 min". -/
theorem formatDuration_claim_cex :
    formatDuration "45 min" = "0 min" ∧ formatDuration "45 min" ≠ "45 min" ∧
    jsParseInt10 "45 min" = some 45 := by
  refine ⟨by decide, by decide, by decide⟩

/-- Claim C2 (amended): if `parseInt(s, 10)` yields no integer (no leading
digits after optional whitespace and sign), `s` is returned unchanged;
otherwise the parsed leading integer `n` is taken as seconds and rendered
as hours-and-minutes when `n ≥ 3600` and as minutes otherwise.  In
particular `formatDuration "3725" = "1h 2m"`, while the non-pure-numeric
`"45 min"` parses to 45 and renders as `"0 min"` rather than passing
through. -/
theorem formatDuration_spec (s : String) :
    (jsParseInt10 s = none → formatDuration s = s) ∧
    (∀ n : Int, jsParseInt10 s = some n →
      (3600 ≤ n → formatDuration s =
        toString (n.fdiv 3600) ++ "h " ++ toString ((n.tmod 3600).fdiv 60) ++ "m") ∧
      (0 ≤ n → n < 3600 → formatDuration s = toString (n.fdiv 60) ++ " min")) ∧
    formatDuration "3725" = "1h 2m" ∧ formatDuration "45 min" = "0 min" := by
  refine ⟨?_, ?_, by decide, by decide⟩
  · intro h
    simp [formatDuration, h]
  · intro n hn
    constructor
    · intro h36
      have hpos : 0 < n.fdiv 3600 := by
        rw [Int.fdiv_eq_ediv _ (by norm_num)]
        omega
      simp [formatDuration, hn, hpos]
    · intro h0 h36
      have hz : n.fdiv 3600 = 0 := by
        rw [Int.fdiv_eq_ediv _ (by norm_num)]
        omega
      have hm : n.tmod 3600 = n := by
        rw [Int.tmod_eq_emod h0 (by norm_num)]
        omega
      simp [formatDuration, hn, hz, hm]

/-- Witness for `formatDuration_spec` at concrete inputs. -/
theorem formatDuration_spec_witness :
    formatDuration "7200" =
      toString ((7200 : Int).fdiv 3600) ++ "h " ++ toString (((7200 : Int).tmod 3600).fdiv 60) ++ "m" ∧
    formatDuration "abc" = "abc" :=
  ⟨((formatDuration_spec "7200").2.1 7200 (by decide)).1 (by decide),
   (formatDuration_spec "abc").1 (by decide)⟩

-- ─── Claim C6: episode number fallback ─────────────────────────────────────

/-- Claim C6.  An item with no explicit episode-number tag whose title has
a leading `<digits>.` pattern yields the digits as the episode number and
the prefix-stripped display title (`"42. Recovery Talk"` gives number
`"42"` and title `"Recovery Talk"`); a non-empty explicit
`itunes:episode` tag wins over the title pattern; a title without the
digits-dot pattern is left unmodified, and one with it loses exactly the
digits, the dot and the following whitespace. -/
theorem episode_number_fallback (jd : String → Int) :
    (parseEpisodeWith jd "<title>42. Recovery Talk</title>").episode = "42" ∧
    (parseEpisodeWith jd "<title>42. Recovery Talk</title>").title = "Recovery Talk" ∧
    (parseEpisodeWith jd
        "<title>42. Recovery Talk</title><itunes:episode>7</itunes:episode>").episode = "7" ∧
    (∀ t : String, leadNumDigits t = none → stripLeadingNum t = t) ∧
    (∀ (t : String) (ds : List Char), leadNumDigits t = some ds →
      stripLeadingNum t = ⟨(t.data.drop (ds.length + 1)).dropWhile isJsSpace⟩) := by
  refine ⟨by rfl, by rfl, by rfl, ?_, ?_⟩
  · intro t h
    by_cases hds : (t.data.takeWhile Char.isDigit).isEmpty = true
    · unfold stripLeadingNum
      simp [hds]
    · unfold leadNumDigits at h
      simp only [hds, Bool.false_eq_true, if_false] at h
      unfold stripLeadingNum
      simp only [hds, Bool.false_eq_true, if_false]
      cases hm : t.data.drop (t.data.takeWhile Char.isDigit).length with
      | nil => rfl
      | cons c rest =>
        rw [hm] at h
        have h' : (if c = '.' then some (t.data.takeWhile Char.isDigit) else none) = none := h
        by_cases hc : c = '.'
        · rw [if_pos hc] at h'
          exact Option.noConfusion h'
        · show (if c = '.' then (⟨List.dropWhile isJsSpace rest⟩ : String) else t) = t
          rw [if_neg hc]
  · intro t ds h
    unfold leadNumDigits at h
    by_cases hds : (t.data.takeWhile Char.isDigit).isEmpty = true
    · simp [hds] at h
    · simp only [hds, Bool.false_eq_true, if_false] at h
      unfold stripLeadingNum
      simp only [hds, Bool.false_eq_true, if_false]
      cases hm : t.data.drop (t.data.takeWhile Char.isDigit).length with
      | nil =>
        rw [hm] at h
        exact Option.noConfusion h
      | cons c rest =>
        rw [hm] at h
        have h' : (if c = '.' then some (t.data.takeWhile Char.isDigit) else none) = some ds := h
        by_cases hc : c = '.'
        · rw [if_pos hc] at h'
          have hds' := Option.some.inj h'
          subst hds'
          show (if c = '.' then (⟨List.dropWhile isJsSpace rest⟩ : String) else t) = _
          rw [if_pos hc]
          congr 1
          have h2 : (t.data.drop (t.data.takeWhile Char.isDigit).length).drop 1 = rest := by
            rw [hm]
            rfl
          rw [List.drop_drop] at h2
          rw [← h2]
        · rw [if_neg hc] at h'
          exact Option.noConfusion h'

/-- Witness for `episode_number_fallback` at a concrete stripping input. -/
theorem episode_number_fallback_witness :
    stripLeadingNum "Recovery Talk" = "Recovery Talk" ∧
    stripLeadingNum "42. Recovery Talk" =
      ⟨("42. Recovery Talk".data.drop ("42".data.length + 1)).dropWhile isJsSpace⟩ :=
  ⟨(episode_number_fallback (fun _ => 0)).2.2.2.1 "Recovery Talk" (by decide),
   (episode_number_fallback (fun _ => 0)).2.2.2.2 "42. Recovery Talk" "42".data (by decide)⟩

-- ─── Claim C7: parseEpisode totality ───────────────────────────────────────

/-- An occurrence test matching the opening-tag guard used by `tagScan` and
`getAttrScan`: is there any position with `<` followed by the
(case-insensitive) tag name?  `false` formalizes "the tag is absent". -/
def tagOpenFound (tag : List Char) : List Char → Bool
  | [] => false
  | c :: rest => (c == '<' && ciIsPfx tag rest) || tagOpenFound tag rest

theorem tagScan_cons (tag : List Char) (c : Char) (rest : List Char) :
    tagScan tag (c :: rest) =
      match tagOpenRemainder tag (c :: rest) with
      | some afterOpen =>
        match splitAtSubCI ('<' :: '/' :: tag ++ ['>']) afterOpen with
        | some (content, _) => some content
        | none => tagScan tag rest
      | none => tagScan tag rest := rfl

theorem tagOpenRemainder_none {tag : List Char} {c : Char} {rest : List Char}
    (h : (c == '<' && ciIsPfx tag rest) = false) :
    tagOpenRemainder tag (c :: rest) = none := by
  show (if c == '<' && ciIsPfx tag rest then
      match (rest.drop tag.length).dropWhile (fun x => x != '>') with
      | '>' :: afterOpen => some afterOpen
      | _ => none
    else none) = none
  rw [if_neg (by simp [h])]

theorem tagScan_none_of (tag : List Char) :
    ∀ l : List Char, tagOpenFound tag l = false → tagScan tag l = none := by
  intro l
  induction l with
  | nil => intro _; rfl
  | cons c rest ih =>
    intro h
    simp only [tagOpenFound, Bool.or_eq_false_iff] at h
    rw [tagScan_cons, tagOpenRemainder_none h.1]
    exact ih h.2

theorem getAttrScan_cons (tag attr : List Char) (c : Char) (rest : List Char) :
    getAttrScan tag attr (c :: rest) =
      if (c == '<' && ciIsPfx tag rest) = true then
        match tryAttrBacktrack attr (rest.drop tag.length)
            ((rest.drop tag.length).takeWhile (fun x => x != '>')).length with
        | some v => some v
        | none => getAttrScan tag attr rest
      else getAttrScan tag attr rest := rfl

theorem getAttrScan_none_of (tag attr : List Char) :
    ∀ l : List Char, tagOpenFound tag l = false → getAttrScan tag attr l = none := by
  intro l
  induction l with
  | nil => intro _; rfl
  | cons c rest ih =>
    intro h
    simp only [tagOpenFound, Bool.or_eq_false_iff] at h
    rw [getAttrScan_cons, if_neg (by simp [h.1])]
    exact ih h.2

/-- Claim C7.  `parseEpisode` is a total function of the item fragment: in
this embedding it is a Lean function, and on a fragment in which every
optional tag is missing it returns the all-default record (every text
field empty, season defaulted to "1", explicit false) rather than
failing; moreover each per-field extraction (`getTagContent`, `getAttr`)
yields the empty string whenever its tag does not occur in the fragment. -/
theorem parse_episode_total :
    (∀ jd : String → Int, parseEpisodeWith jd "" =
      { title := "", fullTitle := "", description := "", summary := "", pubDate := "",
        date := jd "", duration := "", durationRaw := "", episode := "", season := "1",
        explicit := false, audioUrl := "", episodeImage := "", buzzsproutId := "",
        guid := "" }) ∧
    (∀ (xml tag : String), tagOpenFound tag.data xml.data = false →
      getTagContent xml tag = "") ∧
    (∀ (xml tag attr : String), tagOpenFound tag.data xml.data = false →
      getAttr xml tag attr = "") := by
  refine ⟨fun jd => rfl, ?_, ?_⟩
  · intro xml tag h
    unfold getTagContent
    rw [tagScan_none_of tag.data xml.data h]
  · intro xml tag attr h
    unfold getAttr
    rw [getAttrScan_none_of tag.data attr.data xml.data h]

/-- Witness for `parse_episode_total` at concrete inputs. -/
theorem parse_episode_total_witness :
    parseEpisodeWith (fun _ => 0) "" =
      { title := "", fullTitle := "", description := "", summary := "", pubDate := "",
        date := 0, duration := "", durationRaw := "", episode := "", season := "1",
        explicit := false, audioUrl := "", episodeImage := "", buzzsproutId := "",
        guid := "" } ∧
    getTagContent "<x>y</x>" "title" = "" ∧
    getAttr "<x>y</x>" "enclosure" "url" = "" :=
  ⟨parse_episode_total.1 (fun _ => 0),
   parse_episode_total.2.1 "<x>y</x>" "title" (by decide),
   parse_episode_total.2.2 "<x>y</x>" "enclosure" "url" (by decide)⟩

-- ─── Claim C10: getAllItems ────────────────────────────────────────────────

theorem itemScanF_congr :
    ∀ (f1 f2 : Nat) (l : List Char), l.length ≤ f1 → l.length ≤ f2 →
      itemScanF f1 l = itemScanF f2 l := by
  intro f1
  induction f1 with
  | zero =>
    intro f2 l h1 _
    have : l = [] := List.length_eq_zero.mp (Nat.le_zero.mp h1)
    subst this
    cases f2 <;> rfl
  | succ f ih =>
    intro f2 l h1 h2
    cases l with
    | nil => cases f2 <;> rfl
    | cons c rest =>
      cases f2 with
      | zero => simp at h2
      | succ f2' =>
        show (if _ then _ else _) = (if _ then _ else _)
        by_cases hp : ciIsPfx itemOpenL (c :: rest) = true
        · rw [if_pos hp, if_pos hp]
          cases hs : splitAtSubCI itemCloseL ((c :: rest).drop itemOpenL.length) with
          | none => rfl
          | some pair =>
            obtain ⟨content, after⟩ := pair
            have hlen := splitAtSubCI_length hs
            have hple : itemOpenL.length ≤ (c :: rest).length := ciIsPfx_length hp
            have ho : itemOpenL.length = 6 := rfl
            have hcl : itemCloseL.length = 7 := rfl
            simp only [List.length_drop, List.length_cons] at hlen hple
            simp only [List.length_cons] at h1 h2
            have hb1 : after.length ≤ f := by omega
            have hb2 : after.length ≤ f2' := by omega
            simp only []
            rw [ih f2' after hb1 hb2]
        · rw [if_neg hp, if_neg hp]
          exact ih f2' rest (by simpa using Nat.le_of_succ_le_succ (by simpa using h1))
            (by simpa using Nat.le_of_succ_le_succ (by simpa using h2))

theorem itemScan_cons (c : Char) (rest : List Char) :
    itemScan (c :: rest) =
      if ciIsPfx itemOpenL (c :: rest) = true then
        match splitAtSubCI itemCloseL ((c :: rest).drop itemOpenL.length) with
        | some (content, after) => content :: itemScan after
        | none => []
      else itemScan rest := by
  show (if ciIsPfx itemOpenL (c :: rest) = true then
      match splitAtSubCI itemCloseL ((c :: rest).drop itemOpenL.length) with
      | some (content, after) => content :: itemScanF rest.length after
      | none => []
    else itemScanF rest.length rest) = _
  by_cases hp : ciIsPfx itemOpenL (c :: rest) = true
  · rw [if_pos hp, if_pos hp]
    cases hs : splitAtSubCI itemCloseL ((c :: rest).drop itemOpenL.length) with
    | none => rfl
    | some pair =>
      obtain ⟨content, after⟩ := pair
      have hlen := splitAtSubCI_length hs
      have hple : itemOpenL.length ≤ (c :: rest).length := ciIsPfx_length hp
      have ho : itemOpenL.length = 6 := rfl
      have hcl : itemCloseL.length = 7 := rfl
      simp only [List.length_drop, List.length_cons] at hlen hple
      simp only []
      rw [itemScanF_congr rest.length after.length after (by omega) (Nat.le_refl _)]
      rfl
  · rw [if_neg hp, if_neg hp]
    rfl

/-- Case-insensitive occurrence test for a literal pattern, mirroring the
scan positions of `itemScan`. -/
def ciFound (pat : List Char) : List Char → Bool
  | [] => false
  | c :: rest => ciIsPfx pat (c :: rest) || ciFound pat rest

/-- Case-sensitive occurrence test for a literal pattern. -/
def csFound (pat : List Char) : List Char → Bool
  | [] => false
  | c :: rest => pat.isPrefixOf (c :: rest) || csFound pat rest

theorem itemScan_nil_of_not_found :
    ∀ l : List Char, ciFound itemOpenL l = false → itemScan l = [] := by
  intro l
  induction l with
  | nil => intro _; rfl
  | cons c rest ih =>
    intro h
    simp only [ciFound, Bool.or_eq_false_iff] at h
    rw [itemScan_cons, if_neg (by simp [h.1])]
    exact ih h.2

theorem ciIsPfx_self_append (pat x : List Char) : ciIsPfx pat (pat ++ x) = true := by
  induction pat with
  | nil => rfl
  | cons p ps ih =>
    simp only [List.cons_append, ciIsPfx, Bool.and_eq_true]
    exact ⟨by simp [ciEq], ih⟩

/-- Claim C10 counterexample: the `/<item>([\s\S]*?)<\/item>/gi` regex is
case-insensitive, so a document whose only item markup is `<ITEM>...</ITEM>`
still yields a fragment even though the literal lowercase `<item>` occurs
nowhere in it. -/
theorem getAllItems_claim_cex :
    getAllItems "<ITEM>a</ITEM>" = ["a"] ∧
    csFound "<item>".data "<ITEM>a</ITEM>".data = false := by
  refine ⟨by decide, by decide⟩

/-- Claim C10 (amended).  `getAllItems` returns, in document order, exactly
the fragments enclosed by attribute-less opening tags matching `<item>`
case-insensitively: a document with no case-insensitive occurrence of
`<item>` yields no items (in particular an opening tag carrying an
attribute, such as `<item someattr="x">`, contributes nothing), and a
document starting with a bare `<item>` whose first case-insensitive
`</item>` is the closing tag shown yields that fragment followed by the
items of the remainder. -/
theorem getAllItems_spec :
    (∀ xml : String, ciFound itemOpenL xml.data = false → getAllItems xml = []) ∧
    (∀ b rest : String,
      splitAtSubCI itemCloseL (b.data ++ ("</item>".data ++ rest.data)) =
        some (b.data, rest.data) →
      getAllItems ("<item>" ++ b ++ "</item>" ++ rest) = b :: getAllItems rest) ∧
    getAllItems "<item someattr=\"x\"><title>t</title></item>" = [] ∧
    getAllItems "<ITEM>a</ITEM>" = ["a"] := by
  refine ⟨?_, ?_, by decide, by decide⟩
  · intro xml h
    unfold getAllItems
    rw [itemScan_nil_of_not_found xml.data h]
    rfl
  · intro b rest hsplit
    unfold getAllItems
    have hdata : ("<item>" ++ b ++ "</item>" ++ rest).data =
        itemOpenL ++ (b.data ++ ("</item>".data ++ rest.data)) := by
      show ((("<item>" ++ b) ++ "</item>") ++ rest).data = _
      rw [String.data_append, String.data_append, String.data_append]
      simp [itemOpenL, List.append_assoc]
    rw [hdata]
    have hcons : itemOpenL ++ (b.data ++ ("</item>".data ++ rest.data)) =
        '<' :: ("item>".data ++ (b.data ++ ("</item>".data ++ rest.data))) := rfl
    rw [hcons, itemScan_cons]
    rw [if_pos (by
      show ciIsPfx itemOpenL (itemOpenL ++ (b.data ++ ("</item>".data ++ rest.data))) = true
      exact ciIsPfx_self_append _ _)]
    have hdrop : (('<' :: ("item>".data ++ (b.data ++ ("</item>".data ++ rest.data)))).drop
        itemOpenL.length) = b.data ++ ("</item>".data ++ rest.data) := by
      show ((itemOpenL ++ (b.data ++ ("</item>".data ++ rest.data))).drop itemOpenL.length) = _
      rw [List.drop_left]
    rw [hdrop, hsplit]
    rfl

/-- Witness for `getAllItems_spec` at concrete inputs. -/
theorem getAllItems_spec_witness :
    getAllItems "<channel><title>t</title></channel>" = [] ∧
    getAllItems ("<item>" ++ "A" ++ "</item>" ++ "<item>B</item>") =
      "A" :: getAllItems "<item>B</item>" :=
  ⟨getAllItems_spec.1 "<channel><title>t</title></channel>" (by decide),
   getAllItems_spec.2.1 "A" "<item>B</item>" (by decide)⟩

-- ─── Claim C4: truncate ────────────────────────────────────────────────────

theorem dropWhile_head_false {p : Char → Bool} :
    ∀ {l : List Char} {c : Char} {cs : List Char}, l.dropWhile p = c :: cs → p c = false := by
  intro l
  induction l with
  | nil => intro c cs h; simp [List.dropWhile] at h
  | cons x rest ih =>
    intro c cs h
    rw [List.dropWhile_cons] at h
    by_cases hx : p x = true
    · rw [if_pos hx] at h
      exact ih h
    · rw [if_neg hx] at h
      obtain ⟨hxc, -⟩ := List.cons.injEq _ _ _ _ ▸ h
      subst hxc
      simpa using hx

theorem dropTrail_length_le (p : Char → Bool) (l : List Char) :
    (dropTrail p l).length ≤ l.length := by
  unfold dropTrail
  calc (l.reverse.dropWhile p).reverse.length = (l.reverse.dropWhile p).length := by
        rw [List.length_reverse]
    _ ≤ l.reverse.length := (List.dropWhile_sublist _).length_le
    _ = l.length := List.length_reverse l

theorem jsTrimBackWord_length_le (cut : List Char) :
    (jsTrimBackWord cut).length ≤ cut.length := by
  unfold jsTrimBackWord
  by_cases h : cut.any isJsSpace = true
  · rw [if_pos h]
    calc (dropTrail isJsSpace (dropTrail (fun c => !isJsSpace c) cut)).length
        ≤ (dropTrail (fun c => !isJsSpace c) cut).length := dropTrail_length_le _ _
      _ ≤ cut.length := dropTrail_length_le _ _
  · rw [if_neg h]

/-- If the cut contains a whitespace character, the trimmed-back cut is a
prefix of it whose next character is whitespace: the output ends exactly
at a word boundary. -/
theorem jsTrimBackWord_boundary (cut : List Char) (h : cut.any isJsSpace = true) :
    ∃ (d : Char) (t : List Char),
      cut = jsTrimBackWord cut ++ d :: t ∧ isJsSpace d = true := by
  have hw : jsTrimBackWord cut = dropTrail isJsSpace (dropTrail (fun c => !isJsSpace c) cut) := by
    unfold jsTrimBackWord
    rw [if_pos h]
  obtain ⟨sp, hsp_mem, hsp⟩ := List.any_eq_true.mp h
  have hmem_rev : sp ∈ cut.reverse := List.mem_reverse.mpr hsp_mem
  set A := cut.reverse.takeWhile (fun c => !isJsSpace c) with hA
  have hsplit1 : A ++ cut.reverse.dropWhile (fun c => !isJsSpace c) = cut.reverse :=
    List.takeWhile_append_dropWhile _ _
  cases hw1 : cut.reverse.dropWhile (fun c => !isJsSpace c) with
  | nil =>
    exfalso
    rw [hw1, List.append_nil] at hsplit1
    have hmem_take : sp ∈ A := by
      rw [hsplit1]
      exact hmem_rev
    have := List.mem_takeWhile_imp (hA ▸ hmem_take)
    simp [hsp] at this
  | cons c0 rw1' =>
    rw [hw1] at hsplit1
    have hc0 : isJsSpace c0 = true := by
      have := dropWhile_head_false hw1
      simpa using this
    set T := rw1'.takeWhile isJsSpace with hT0
    set D := (c0 :: rw1').dropWhile isJsSpace with hD0
    have htake2 : (c0 :: rw1').takeWhile isJsSpace = c0 :: T := by
      rw [List.takeWhile_cons, if_pos hc0]
    have hsplit2 : (c0 :: T) ++ D = c0 :: rw1' := by
      rw [← htake2, hD0]
      exact List.takeWhile_append_dropWhile _ _
    have hcore : jsTrimBackWord cut = D.reverse := by
      rw [hw]
      show (((cut.reverse.dropWhile (fun c => !isJsSpace c)).reverse).reverse.dropWhile
          isJsSpace).reverse = _
      rw [hw1, List.reverse_reverse, hD0]
    have h3 : cut.reverse = A ++ ((c0 :: T) ++ D) := by
      rw [hsplit2]
      exact hsplit1.symm
    have hcut : cut = D.reverse ++ (T.reverse ++ ([c0] ++ A.reverse)) := by
      conv_lhs => rw [← List.reverse_reverse cut, h3]
      simp [List.reverse_append, List.append_assoc]
    cases hT : T.reverse with
    | nil =>
      refine ⟨c0, A.reverse, ?_, hc0⟩
      rw [hcore]
      rw [hT] at hcut
      simpa using hcut
    | cons d trest =>
      have hd : isJsSpace d = true := by
        have hdmem : d ∈ T.reverse := by
          rw [hT]
          exact List.mem_cons_self _ _
        exact List.mem_takeWhile_imp (hT0 ▸ List.mem_reverse.mp hdmem)
      refine ⟨d, trest ++ ([c0] ++ A.reverse), ?_, hd⟩
      rw [hcore]
      rw [hT] at hcut
      simpa [List.append_assoc] using hcut

/-- Claim C4 counterexample.  Two parts of the claim fail on the code:
a single word longer than the limit is hard-cut mid-word
(`truncate "alphabetical" 5 = "alpha..."`, and in the cleaned text the
cut is followed by the non-whitespace letter `b`); and when the text
starts with the promotional prefix, `truncate` returns the
prefix-cleaned text, not the merely markup-stripped text, although the
stripped text is within the limit. -/
theorem truncate_claim_cex :
    truncate "alphabetical" 5 = "alpha..." ∧
    cleanDescription (stripHtml "alphabetical") = "alphabetical" ∧
    "alphabetical".data = "alpha".data ++ 'b' :: "etical".data ∧
    isJsSpace 'b' = false ∧
    (stripHtml "Send us a text hi").length ≤ 17 ∧
    truncate "Send us a text hi" 17 ≠ stripHtml "Send us a text hi" := by
  refine ⟨by decide, by decide, by decide, by decide, by decide, by decide⟩

/-- Claim C4 (amended).  `truncate text N` has length at most `N` plus the
three-character ellipsis; when the markup-stripped and prefix-cleaned
text fits in `N` it is returned unchanged; and when it does not fit but
the first `N` characters of the cleaned text contain a whitespace, the
part before the ellipsis is a prefix of the cleaned text whose next
character is whitespace — the cut never splits a word.  (A single word
longer than `N` is hard-cut, and the unchanged-return value is the
prefix-cleaned text, not the merely markup-stripped one.) -/
theorem truncate_spec (text : String) (maxLen : Nat) :
    (truncate text maxLen).length ≤ maxLen + 3 ∧
    ((cleanDescription (stripHtml text)).length ≤ maxLen →
      truncate text maxLen = cleanDescription (stripHtml text)) ∧
    (maxLen < (cleanDescription (stripHtml text)).length →
      ((cleanDescription (stripHtml text)).data.take maxLen).any isJsSpace = true →
      ∃ (core t : List Char) (d : Char),
        truncate text maxLen = String.mk core ++ "..." ∧
        (cleanDescription (stripHtml text)).data = core ++ d :: t ∧
        isJsSpace d = true) := by
  refine ⟨?_, ?_, ?_⟩
  · by_cases h : (cleanDescription (stripHtml text)).length ≤ maxLen
    · unfold truncate
      rw [if_pos h]
      omega
    · unfold truncate
      rw [if_neg h]
      show (String.mk (jsTrimBackWord ((cleanDescription (stripHtml text)).data.take maxLen)) ++
        ("..." : String)).length ≤ maxLen + 3
      rw [String.length_append]
      have h1 : (String.mk (jsTrimBackWord
          ((cleanDescription (stripHtml text)).data.take maxLen))).length =
          (jsTrimBackWord ((cleanDescription (stripHtml text)).data.take maxLen)).length := rfl
      rw [h1]
      have h2 := jsTrimBackWord_length_le ((cleanDescription (stripHtml text)).data.take maxLen)
      have h3 : ((cleanDescription (stripHtml text)).data.take maxLen).length ≤ maxLen := by
        rw [List.length_take]
        omega
      have h4 : ("..." : String).length = 3 := rfl
      omega
  · intro h
    unfold truncate
    rw [if_pos h]
  · intro hlt hany
    set cut := (cleanDescription (stripHtml text)).data.take maxLen with hcutdef
    obtain ⟨d, t, hcut, hd⟩ := jsTrimBackWord_boundary cut hany
    refine ⟨jsTrimBackWord cut,
      t ++ (cleanDescription (stripHtml text)).data.drop maxLen, d, ?_, ?_, hd⟩
    · unfold truncate
      rw [if_neg (by omega), ← hcutdef]
    · have h5 : (cleanDescription (stripHtml text)).data =
          cut ++ (cleanDescription (stripHtml text)).data.drop maxLen := by
        rw [hcutdef]
        exact (List.take_append_drop _ _).symm
      rw [hcut] at h5
      simpa [List.append_assoc] using h5

/-- Witness for `truncate_spec` at concrete inputs. -/
theorem truncate_spec_witness :
    truncate "short text" 200 = cleanDescription (stripHtml "short text") ∧
    (∃ (core t : List Char) (d : Char),
      truncate "hello world this is long" 11 = String.mk core ++ "..." ∧
      (cleanDescription (stripHtml "hello world this is long")).data = core ++ d :: t ∧
      isJsSpace d = true) :=
  ⟨(truncate_spec "short text" 200).2.1 (by decide),
   (truncate_spec "hello world this is long" 11).2.2 (by decide) (by decide)⟩

-- ─── Claim C3: episode sort order ──────────────────────────────────────────

theorem epLe_total (a b : Episode) : (epLe a b || epLe b a) = true := by
  simp only [epLe, Bool.or_eq_true, decide_eq_true_eq]
  unfold epCompare
  split_ifs <;> omega

theorem epLe_trans (a b c : Episode) :
    epLe a b = true → epLe b c = true → epLe a c = true := by
  simp only [epLe, decide_eq_true_eq]
  unfold epCompare
  split_ifs <;> omega

theorem sortEpisodes_pairwise (l : List Episode) :
    List.Pairwise (fun a b => epLe a b = true) (sortEpisodes l) :=
  List.sorted_mergeSort epLe_trans epLe_total l

/-- Claim C3.  In the sorted collection, for two episodes at positions
`i` and `j` whose episode-number fields `parseInt` to distinct integers,
`i < j` holds exactly when the number at `i` is greater; and when the
effective keys (`parseInt(episode) || 0`, unparsable treated as 0) are
equal, an earlier position has a later-or-equal date (descending publish
date breaks the tie). -/
theorem episode_sort_order (l : List Episode) (i j : Nat) (A B : Episode)
    (hA : (sortEpisodes l).get? i = some A) (hB : (sortEpisodes l).get? j = some B) :
    (∀ nA nB : Int, jsParseIntND A.episode = some nA → jsParseIntND B.episode = some nB →
      nA ≠ nB → (i < j ↔ nB < nA)) ∧
    (sortKeyNum A = sortKeyNum B → i < j → B.date ≤ A.date) := by
  obtain ⟨hilen, hAg⟩ := List.get?_eq_some.mp hA
  obtain ⟨hjlen, hBg⟩ := List.get?_eq_some.mp hB
  have hpair := List.pairwise_iff_get.mp (sortEpisodes_pairwise l)
  constructor
  · intro nA nB hnA hnB hne
    have hkA : sortKeyNum A = nA := by
      unfold sortKeyNum
      rw [hnA]
      rfl
    have hkB : sortKeyNum B = nB := by
      unfold sortKeyNum
      rw [hnB]
      rfl
    constructor
    · intro hij
      have hle := hpair ⟨i, hilen⟩ ⟨j, hjlen⟩ (Fin.mk_lt_mk.mpr hij)
      rw [hAg, hBg] at hle
      simp only [epLe, decide_eq_true_eq] at hle
      unfold epCompare at hle
      rw [hkA, hkB] at hle
      rw [if_pos hne] at hle
      omega
    · intro hBA
      rcases Nat.lt_trichotomy i j with h | h | h
      · exact h
      · exfalso
        subst h
        have : A = B := by
          rw [← hAg, ← hBg]
        rw [this] at hnA
        rw [hnA] at hnB
        exact hne (Option.some.inj hnB)
      · exfalso
        have hle := hpair ⟨j, hjlen⟩ ⟨i, hilen⟩ (Fin.mk_lt_mk.mpr h)
        rw [hAg, hBg] at hle
        simp only [epLe, decide_eq_true_eq] at hle
        unfold epCompare at hle
        rw [hkA, hkB] at hle
        have hne' : nB ≠ nA := fun hh => hne hh.symm
        rw [if_pos hne'] at hle
        omega
  · intro hk hij
    have hle := hpair ⟨i, hilen⟩ ⟨j, hjlen⟩ (Fin.mk_lt_mk.mpr hij)
    rw [hAg, hBg] at hle
    simp only [epLe, decide_eq_true_eq] at hle
    unfold epCompare at hle
    rw [if_neg (by omega)] at hle
    omega

/-- An all-default episode with only a number and a date, used as concrete
input for witnesses. -/
def mkEp (e : String) (d : Int) : Episode :=
  { title := "", fullTitle := "", description := "", summary := "", pubDate := "",
    date := d, duration := "", durationRaw := "", episode := e, season := "1",
    explicit := false, audioUrl := "", episodeImage := "", buzzsproutId := "", guid := "" }

theorem sortEpisodes_demo :
    sortEpisodes [mkEp "1" 9, mkEp "2" 5] = [mkEp "2" 5, mkEp "1" 9] := by
  have h12 : epLe (mkEp "1" 9) (mkEp "2" 5) = false := by decide
  simp [sortEpisodes, List.mergeSort, List.merge, h12]

/-- Witness for `episode_sort_order` at a concrete two-episode input. -/
theorem episode_sort_order_witness : ((0 : Nat) < 1 ↔ (1 : Int) < 2) :=
  (episode_sort_order [mkEp "1" 9, mkEp "2" 5] 0 1 (mkEp "2" 5) (mkEp "1" 9)
    (by rw [sortEpisodes_demo]; rfl)
    (by rw [sortEpisodes_demo]; rfl)).1 2 1 (by decide) (by decide) (by decide)

-- ─── Claim C5: home page hero and recent grid ──────────────────────────────

/-- Claim C5 counterexample: the recent-episodes grid is
`episodes.slice(0, 6)`, which includes the hero episode itself, not the
six episodes after it: on a two-episode collection the grid holds both
episodes, while "the next 6 episodes after the hero" would be only the
second. -/
theorem home_recent_claim_cex :
    homeRecent [mkEp "2" 5, mkEp "1" 9] = [mkEp "2" 5, mkEp "1" 9] ∧
    homeRecent [mkEp "2" 5, mkEp "1" 9] ≠ ([mkEp "2" 5, mkEp "1" 9].drop 1).take 6 := by
  refine ⟨by decide, by decide⟩

/-- Claim C5 (amended).  For a non-empty collection the home page renders
the first episode of the sorted collection as the hero (its title
fragment and its truncated description appear in the document), and the
recent-episodes grid holds exactly the first 6 episodes of the
collection, hero included; for a collection of length 1 the grid shows
exactly that episode's card.  On an empty collection the source throws
(modelled as `none`). -/
theorem home_page_spec (fd : Int → String) (meta : PodcastMeta) (latest : Episode)
    (rest : List Episode) :
    (∃ a b : String, generateHomePage fd (latest :: rest) meta =
      some (a ++ heroTitleHTML latest ++ b)) ∧
    (∃ a b : String, generateHomePage fd (latest :: rest) meta =
      some (a ++ escapeHtml (truncate latest.description 250) ++ b)) ∧
    homeRecent (latest :: rest) = (latest :: rest).take 6 ∧
    (rest = [] → (homeRecent (latest :: rest)).map (episodeCardHTML fd) =
      [episodeCardHTML fd latest]) ∧
    generateHomePage fd ([] : List Episode) meta = none := by
  refine ⟨?_, ?_, rfl, ?_, rfl⟩
  · refine ⟨homeBodyA meta, heroDescPre ++ escapeHtml (truncate latest.description 250) ++
      homeBodyC fd (latest :: rest) latest, ?_⟩
    show some (homePageBody fd (latest :: rest) latest meta) = some _
    unfold homePageBody
    simp only [String.append_assoc]
  · exact ⟨homeBodyA meta ++ heroTitleHTML latest ++ heroDescPre,
      homeBodyC fd (latest :: rest) latest, rfl⟩
  · intro h
    subst h
    rfl

/-- Witness for `home_page_spec` at a concrete one-episode collection. -/
theorem home_page_spec_witness :
    homeRecent [mkEp "1" 0] = [mkEp "1" 0].take 6 ∧
    (homeRecent [mkEp "1" 0]).map (episodeCardHTML (fun _ => "")) =
      [episodeCardHTML (fun _ => "") (mkEp "1" 0)] :=
  ⟨(home_page_spec (fun _ => "") ⟨"", "", "", "", ""⟩ (mkEp "1" 0) []).2.2.1,
   (home_page_spec (fun _ => "") ⟨"", "", "", "", ""⟩ (mkEp "1" 0) []).2.2.2.1 rfl⟩

-- ─── Claim C8: episode page previous/next navigation ───────────────────────

theorem findIdx?_succ_start {α : Type} (p : α → Bool) :
    ∀ (l : List α) (s : Nat),
      List.findIdx? p l (s + 1) = (List.findIdx? p l s).map (fun n => n + 1) := by
  intro l
  induction l with
  | nil => intro s; simp [List.findIdx?_nil]
  | cons x rest ih =>
    intro s
    rw [List.findIdx?_cons, List.findIdx?_cons]
    by_cases h : p x = true
    · simp [h]
    · simp only [h, Bool.false_eq_true, if_false]
      exact ih (s + 1)

theorem epIndexOf_get :
    ∀ (l : List Episode), l.Pairwise (fun a b => a.episode ≠ b.episode) →
      ∀ (i : Nat) (hi : i < l.length),
        List.findIdx? (fun e => e.episode == (l.get ⟨i, hi⟩).episode) l = some i := by
  intro l
  induction l with
  | nil => intro _ i hi; simp at hi
  | cons x rest ih =>
    intro hd i hi
    cases i with
    | zero =>
      rw [List.findIdx?_cons]
      simp
    | succ k =>
      have hk : k < rest.length := by simpa using hi
      have hget : (x :: rest).get ⟨k + 1, hi⟩ = rest.get ⟨k, hk⟩ := rfl
      have hne : x.episode ≠ (rest.get ⟨k, hk⟩).episode :=
        (List.pairwise_cons.mp hd).1 _ (List.get_mem _ _ _)
      rw [hget, List.findIdx?_cons, if_neg (by simpa using hne), findIdx?_succ_start,
        ih (List.pairwise_cons.mp hd).2 k hk]
      rfl

theorem epIndexOf_eq (l : List Episode)
    (hd : l.Pairwise (fun a b => a.episode ≠ b.episode)) (i : Nat) (hi : i < l.length) :
    epIndexOf l (l.get ⟨i, hi⟩) = (i : Int) := by
  unfold epIndexOf
  rw [epIndexOf_get l hd i hi]

/-- Claim C8.  In a collection with pairwise-distinct episode numbers, the
detail page of the episode at index `i` resolves "previous" to the
episode at `i + 1` (next older) and "next" to the one at `i - 1` (next
newer); the first episode gets no next link and the last no previous
link (a bare `<span></span>` placeholder instead of an anchor), both
navigation slots appear in the rendered page, and for a collection of
length 1 both are absent. -/
theorem episode_nav_spec (fd : Int → String) (l : List Episode)
    (hd : l.Pairwise (fun a b => a.episode ≠ b.episode)) (i : Nat) (hi : i < l.length) :
    prevEpOf l (l.get ⟨i, hi⟩) = l.get? (i + 1) ∧
    nextEpOf l (l.get ⟨i, hi⟩) = (if i = 0 then none else l.get? (i - 1)) ∧
    (i = 0 → nextLinkHTML (nextEpOf l (l.get ⟨i, hi⟩)) = "<span></span>") ∧
    (i = l.length - 1 → prevLinkHTML (prevEpOf l (l.get ⟨i, hi⟩)) = "<span></span>") ∧
    (∃ a b : String, generateEpisodePage fd (l.get ⟨i, hi⟩) l l =
      a ++ prevLinkHTML (prevEpOf l (l.get ⟨i, hi⟩)) ++ b) ∧
    (∃ a b : String, generateEpisodePage fd (l.get ⟨i, hi⟩) l l =
      a ++ nextLinkHTML (nextEpOf l (l.get ⟨i, hi⟩)) ++ b) ∧
    (l.length = 1 →
      prevLinkHTML (prevEpOf l (l.get ⟨i, hi⟩)) = "<span></span>" ∧
      nextLinkHTML (nextEpOf l (l.get ⟨i, hi⟩)) = "<span></span>") := by
  have hidx := epIndexOf_eq l hd i hi
  have hprev : prevEpOf l (l.get ⟨i, hi⟩) = l.get? (i + 1) := by
    unfold prevEpOf jsArrGet
    rw [hidx, if_pos (by omega)]
    congr 1
  have hnext : nextEpOf l (l.get ⟨i, hi⟩) = (if i = 0 then none else l.get? (i - 1)) := by
    unfold nextEpOf jsArrGet
    rw [hidx]
    by_cases h0 : i = 0
    · subst h0
      rw [if_neg (by omega), if_pos rfl]
    · rw [if_pos (by omega), if_neg h0]
      congr 1
      omega
  refine ⟨hprev, hnext, ?_, ?_, ?_, ?_, ?_⟩
  · intro h0
    rw [hnext, if_pos h0]
    rfl
  · intro hlast
    rw [hprev, List.get?_eq_none.mpr (by omega)]
    rfl
  · exact ⟨epBodyA fd (l.get ⟨i, hi⟩),
      epNavMid ++ nextLinkHTML (nextEpOf l (l.get ⟨i, hi⟩)) ++ epBodyZ l, by
        show episodePageBody fd (l.get ⟨i, hi⟩) l = _
        unfold episodePageBody
        simp only [String.append_assoc]⟩
  · exact ⟨epBodyA fd (l.get ⟨i, hi⟩) ++ prevLinkHTML (prevEpOf l (l.get ⟨i, hi⟩)) ++ epNavMid,
      epBodyZ l, rfl⟩
  · intro hlen
    have h0 : i = 0 := by omega
    constructor
    · rw [hprev, List.get?_eq_none.mpr (by omega)]
      rfl
    · rw [hnext, if_pos h0]
      rfl

/-- Witness for `episode_nav_spec` on a one-episode collection. -/
theorem episode_nav_spec_witness :
    prevLinkHTML (prevEpOf [mkEp "1" 0] ([mkEp "1" 0].get ⟨0, by decide⟩)) = "<span></span>" ∧
    nextLinkHTML (nextEpOf [mkEp "1" 0] ([mkEp "1" 0].get ⟨0, by decide⟩)) = "<span></span>" :=
  (episode_nav_spec (fun _ => "") [mkEp "1" 0] (by simp) 0 (by decide)).2.2.2.2.2.2 rfl

-- ─── Claim C1: HTML escaping of interpolated episode text ──────────────────

/-- An episode whose feed title contains markup-significant characters. -/
def tEvil : Episode := { mkEp "7" 0 with title := "a<b" }

/-- Claim C1, failing part.  The sidebar recent-episodes list interpolates
`ep.title` with no `escapeHtml` (build.js line 247): the item rendered
for a title containing `<` carries the character verbatim, differs from
the escaped rendering, and the raw title appears verbatim inside the
full `sidebarHTML` output — while `escapeHtml` (used by the hero and the
cards for the same field) would have produced `a&lt;b`. -/
theorem sidebar_title_unescaped :
    sidebarItemHTML tEvil =
      "\n          <li><a href=\"episodes/7.html\">7. a<b</a></li>\n          " ∧
    escapeHtml tEvil.title = "a&lt;b" ∧
    sidebarItemHTML tEvil ≠
      "\n          <li><a href=\"episodes/7.html\">7. " ++ escapeHtml tEvil.title ++
        "</a></li>\n          " ∧
    (∃ a b : String, sidebarHTML [tEvil] = a ++ tEvil.title ++ b) := by
  refine ⟨by decide, by decide, by decide, ?_⟩
  obtain ⟨pre, post, hshape⟩ :
      ∃ pre post : String, ∀ eps : List Episode,
        sidebarHTML eps = pre ++ String.join ((eps.take 10).map sidebarItemHTML) ++ post :=
    ⟨_, _, fun _ => rfl⟩
  have hj : String.join ([tEvil].take 10 |>.map sidebarItemHTML) = sidebarItemHTML tEvil := rfl
  have hitem : sidebarItemHTML tEvil =
      "\n          <li><a href=\"episodes/7.html\">7. " ++
        (tEvil.title ++ "</a></li>\n          ") := by decide
  refine ⟨pre ++ "\n          <li><a href=\"episodes/7.html\">7. ",
    "</a></li>\n          " ++ post, ?_⟩
  rw [hshape [tEvil], hj, hitem]
  simp [String.append_assoc]
